import Mathlib

/-!
Verification of the `CodexAppServerTransport` protocol bridge
(`packages/transport-codex-appserver`).

The bridge spawns a line-delimited JSON-RPC peer, performs an
`initialize`/`initialized` handshake, correlates outbound calls with
responses, answers peer-initiated approval requests, and normalizes the
peer notification stream into domain events.

The embedding below models JavaScript values (`JVal`), the bridge state
(`BridgeState`), and every handler touched by the specified properties as
pure state-transition functions returning the successor state together
with the list of observable effects (messages written to the peer, domain
events delivered to listeners, promise settlements).
-/

/-- A JSON/JavaScript value as it appears in peer messages.  `none` at a
field-access site models the JavaScript `undefined`. -/
inductive JVal where
  | str (s : String)
  | num (n : Int)
  | boolean (b : Bool)
  | null
  | arr (elems : List JVal)
  | obj (fields : List (String × JVal))

namespace JVal

/-- Property access `v?.k`: a lookup in an object, `undefined` otherwise. -/
def get : JVal → String → Option JVal
  | .obj fields, k => (fields.find? (fun p => p.1 == k)).map (·.2)
  | _, _ => none

/-- JavaScript truthiness.  Empty strings and `0` are falsy; arrays and
objects (even empty ones) are truthy. -/
def truthy : JVal → Bool
  | .str s => !s.isEmpty
  | .num n => n != 0
  | .boolean b => b
  | .null => false
  | .arr _ => true
  | .obj _ => true

/-- `String(x)` for an array element: JavaScript renders `null` inside an
array as the empty string. -/
def arrElemString (v : JVal) : String :=
  match v with
  | .null => ""
  | .str s => s
  | .num n => toString n
  | .boolean b => if b then "true" else "false"
  | .arr _ => ""
  | .obj _ => "[object Object]"

/-- The JavaScript `String(x)` coercion, restricted to the value shapes the
bridge can receive.  Nested arrays are flattened only one level, which is
all the handlers ever exercise. -/
def jsToString : JVal → String
  | .str s => s
  | .num n => toString n
  | .boolean b => if b then "true" else "false"
  | .null => "null"
  | .arr xs => String.intercalate "," (xs.map arrElemString)
  | .obj _ => "[object Object]"

end JVal

/-- `a || b` on possibly-undefined values: keeps `a` when truthy. -/
def jsOr (a b : Option JVal) : Option JVal :=
  match a with
  | some v => if v.truthy then some v else b
  | none => b

/-- `a ?? b` on a possibly-undefined value, collapsing `null` as well. -/
def nullishD (a : Option JVal) (b : JVal) : JVal :=
  match a with
  | some .null => b
  | some v => v
  | none => b

/-- `a ?? b` where both sides are possibly-undefined extraction results. -/
def nullishOpt {α : Type} (a b : Option α) : Option α :=
  match a with
  | some v => some v
  | none => b

/-- `a ?? b` on two possibly-undefined field reads: an explicit `null`
on the left also falls through to the right. -/
def nullishField (a b : Option JVal) : Option JVal :=
  match a with
  | some .null => b
  | some v => some v
  | none => b

/-- A TypeScript `x as string | undefined` read followed by a `!x` guard:
yields the coerced string only for defined truthy values. -/
def castTruthyString (v : Option JVal) : Option String :=
  match v with
  | some x => if x.truthy then some x.jsToString else none
  | none => none

/-- Does the first character list start with the second? -/
def startsWithChars : List Char → List Char → Bool
  | _, [] => true
  | [], _ :: _ => false
  | a :: as, b :: bs => (a == b) && startsWithChars as bs

/-- Does the first character list contain the second as a contiguous
sublist? -/
def containsChars : List Char → List Char → Bool
  | [], pat => pat.isEmpty
  | a :: rest, pat => startsWithChars (a :: rest) pat || containsChars rest pat

/-- `s.startsWith(pat)`. -/
def strStartsWith (s pat : String) : Bool :=
  startsWithChars s.data pat.data

/-- `haystack.includes(needle)` for the method-name tests. -/
def jsIncludes (haystack needle : String) : Bool :=
  containsChars haystack.data needle.data

/-- `resolveThreadId`: reads the thread id from any of the accepted field
names and nesting depths, in source order, via a `||` chain; `undefined`
and `null` results yield no id, anything else is string-coerced. -/
def resolveThreadId (params : JVal) : Option String :=
  let value :=
    jsOr (params.get "threadId")
      (jsOr (params.get "thread_id")
        (jsOr ((params.get "thread").bind (fun t => t.get "id"))
          (jsOr (params.get "conversationId")
            (jsOr ((params.get "item").bind (fun i => i.get "threadId"))
              ((params.get "item").bind (fun i => i.get "thread_id"))))))
  match value with
  | none => none
  | some .null => none
  | some v => some v.jsToString

/-- `resolveTurnId`: same pattern over the accepted turn-id field names. -/
def resolveTurnId (params : JVal) : Option String :=
  let value :=
    jsOr (params.get "turnId")
      (jsOr (params.get "turn_id")
        (jsOr ((params.get "turn").bind (fun t => t.get "id"))
          (jsOr ((params.get "item").bind (fun i => i.get "turnId"))
            ((params.get "item").bind (fun i => i.get "turn_id")))))
  match value with
  | none => none
  | some .null => none
  | some v => some v.jsToString

/-- `extractApprovalId`: `||` chain over approval-id field names; falsy
ids fall through and a fully falsy chain yields no id. -/
def extractApprovalId (params : JVal) : Option String :=
  let value :=
    jsOr (params.get "approvalId")
      (jsOr (params.get "approval_id")
        (jsOr (params.get "requestId")
          (jsOr (params.get "request_id") (params.get "id"))))
  match value with
  | some v => if v.truthy then some v.jsToString else none
  | none => none

/-- `extractCommand`: `||` chain over command field shapes; arrays are
joined with spaces via `Array.prototype.join` (which renders a `null`
element as the empty string), strings pass through, anything else is
dropped. -/
def extractCommand (params : JVal) : Option String :=
  let command :=
    jsOr (params.get "command")
      (jsOr ((params.get "parsedCmd").bind (fun p => p.get "cmd"))
        (jsOr (params.get "parsed_cmd")
          (jsOr ((params.get "item").bind (fun i => i.get "command"))
            (jsOr ((params.get "item").bind (fun i => (i.get "parsedCmd").bind (fun p => p.get "cmd")))
              ((params.get "item").bind (fun i => i.get "parsed_cmd"))))))
  match command with
  | none => none
  | some v =>
    if !v.truthy then none
    else match v with
      | .arr parts => some (String.intercalate " " (parts.map JVal.arrElemString))
      | .str s => some s
      | _ => none

/-- `normalizeCommand` on the value selected by the `??` chain in the
low-level execution-begin handler.  Unlike `extractCommand`, the source
maps each array element through `String(part)` before joining, so a
`null` element renders as "null" here. -/
def normalizeCommand (command : Option JVal) : Option String :=
  match command with
  | none => none
  | some v =>
    if !v.truthy then none
    else match v with
      | .arr parts => some (String.intercalate " " (parts.map JVal.jsToString))
      | .str s => some s
      | _ => none

/-- `mapDecision`: decisions starting with "approve" become `accept`. -/
def mapDecision (decision : String) : String :=
  if strStartsWith decision "approve" then "accept" else "decline"

/-- One character of the base64 alphabet, mapped to its 6-bit value. -/
def base64CharVal (c : Char) : Option Nat :=
  if 'A' ≤ c ∧ c ≤ 'Z' then some (c.toNat - 65)
  else if 'a' ≤ c ∧ c ≤ 'z' then some (c.toNat - 97 + 26)
  else if '0' ≤ c ∧ c ≤ '9' then some (c.toNat - 48 + 52)
  else if c = '+' then some 62
  else if c = '/' then some 63
  else none

/-- Membership in `[A-Za-z0-9+/]`. -/
def isB64Char (c : Char) : Bool :=
  (base64CharVal c).isSome

/-- The test `^[A-Za-z0-9+/]+={0,2}$`: at least one alphabet character,
then at most two trailing padding characters, nothing else. -/
def isBase64Shape (s : String) : Bool :=
  let cs := s.data
  let eqCount := (cs.reverse.takeWhile (fun c => c = '=')).length
  let dataPart := cs.take (cs.length - eqCount)
  decide (eqCount ≤ 2) && !dataPart.isEmpty && dataPart.all isB64Char

/-- Reassembles 6-bit groups into bytes, dropping the padding remainder
bits exactly as a forgiving base64 decoder does. -/
def sextetsToBytes : List Nat → List Nat
  | a :: b :: c :: d :: rest =>
    (a * 4 + b / 16) :: ((b % 16) * 16 + c / 4) :: ((c % 4) * 64 + d) :: sextetsToBytes rest
  | [a, b] => [a * 4 + b / 16]
  | [a, b, c] => [a * 4 + b / 16, (b % 16) * 16 + c / 4]
  | _ => []

/-- `Buffer.from(chunk, "base64")`: padding and non-alphabet characters
are skipped, the remaining sextets are packed into bytes. -/
def b64DecodeBytes (s : String) : List Nat :=
  sextetsToBytes (s.data.filterMap base64CharVal)

/-- Is `b` a UTF-8 continuation byte? -/
def isCont (b : Nat) : Bool :=
  128 ≤ b && b ≤ 191

/-- The replacement character emitted for invalid UTF-8 input. -/
def replChar : Char := Char.ofNat 0xFFFD

/-- UTF-8 decoding with U+FFFD replacement on invalid sequences,
resuming at the offending byte (WHATWG behaviour, as used by
`buffer.toString("utf8")`).  The fuel argument only serves termination;
every step consumes at least one byte, so `l.length` fuel is enough. -/
def utf8DecodeAux : Nat → List Nat → List Char
  | 0, _ => []
  | _, [] => []
  | fuel + 1, b :: rest =>
    if b < 128 then Char.ofNat b :: utf8DecodeAux fuel rest
    else if 194 ≤ b ∧ b ≤ 223 then
      match rest with
      | c :: rest2 =>
        if isCont c then Char.ofNat ((b - 192) * 64 + (c - 128)) :: utf8DecodeAux fuel rest2
        else replChar :: utf8DecodeAux fuel rest
      | [] => [replChar]
    else if 224 ≤ b ∧ b ≤ 239 then
      match rest with
      | c :: rest2 =>
        let lo := if b = 224 then 160 else 128
        let hi := if b = 237 then 159 else 191
        if lo ≤ c ∧ c ≤ hi then
          match rest2 with
          | d :: rest3 =>
            if isCont d then
              Char.ofNat ((b - 224) * 4096 + (c - 128) * 64 + (d - 128)) :: utf8DecodeAux fuel rest3
            else replChar :: utf8DecodeAux fuel rest2
          | [] => [replChar]
        else replChar :: utf8DecodeAux fuel rest
      | [] => [replChar]
    else if 240 ≤ b ∧ b ≤ 244 then
      match rest with
      | c :: rest2 =>
        let lo := if b = 240 then 144 else 128
        let hi := if b = 244 then 143 else 191
        if lo ≤ c ∧ c ≤ hi then
          match rest2 with
          | d :: rest3 =>
            if isCont d then
              match rest3 with
              | e :: rest4 =>
                if isCont e then
                  Char.ofNat ((b - 240) * 262144 + (c - 128) * 4096 + (d - 128) * 64 + (e - 128)) ::
                    utf8DecodeAux fuel rest4
                else replChar :: utf8DecodeAux fuel rest3
              | [] => [replChar]
            else replChar :: utf8DecodeAux fuel rest2
          | [] => [replChar]
        else replChar :: utf8DecodeAux fuel rest
      | [] => [replChar]
    else replChar :: utf8DecodeAux fuel rest

/-- `bytes.toString("utf8")`. -/
def utf8DecodeString (bytes : List Nat) : String :=
  String.mk (utf8DecodeAux bytes.length bytes)

/-- `decodeChunk`: strict-shape chunks of length divisible by four are
base64-decoded and read as UTF-8; everything else passes through
verbatim.  The decoder never throws, so the source catch-branch that
would also return the chunk unchanged is unreachable. -/
def decodeChunk (chunk : String) : String :=
  if chunk.isEmpty then ""
  else if chunk.length % 4 == 0 && isBase64Shape chunk then
    utf8DecodeString (b64DecodeBytes chunk)
  else chunk

/-! ## Bridge state -/

/-- Association-list lookup, mirroring `Map.get` (keys are unique because
`assocInsert` replaces in place). -/
def assocFind? {α β : Type} [DecidableEq α] : List (α × β) → α → Option β
  | [], _ => none
  | (k', v') :: rest, k => if k' = k then some v' else assocFind? rest k

/-- `Map.set`: replaces the value of an existing key in place, otherwise
appends the new binding. -/
def assocInsert {α β : Type} [DecidableEq α] : List (α × β) → α → β → List (α × β)
  | [], k, v => [(k, v)]
  | (k', v') :: rest, k, v =>
    if k' = k then (k, v) :: rest else (k', v') :: assocInsert rest k v

/-- `Map.delete`: the key is gone afterwards. -/
def assocErase {α β : Type} [DecidableEq α] (l : List (α × β)) (k : α) : List (α × β) :=
  l.filter (fun p => decide (p.1 ≠ k))

/-- `Set.add`. -/
def setAdd (l : List String) (x : String) : List String :=
  if l.contains x then l else x :: l

/-- `{ sessionId, cwd }` recorded per thread. -/
structure ThreadContext where
  sessionId : String
  cwd : String
deriving DecidableEq, Repr

/-- The command-execution context captured at `exec_command_begin`. -/
structure CmdExec where
  threadId : Option String
  turnId : Option String
  command : Option String
  cwd : Option String
deriving DecidableEq, Repr

/-- The state of the shared readiness promise created in the constructor. -/
inductive ReadyState where
  | pendingReady
  | resolvedReady
  | failedReady (message : String)
deriving DecidableEq, Repr

/-- The mutable state of one `CodexAppServerTransport` instance.  The
`pendingApprovals` map stores the request id the registered responder
closure would answer; `pendingRequests` stores the method of each
in-flight outbound call. -/
structure BridgeState where
  pendingRequests : List (Int × String)
  pendingApprovals : List (String × Int)
  threadContexts : List (String × ThreadContext)
  turnToThread : List (String × String)
  pendingThreadNotifications : List String
  pendingNotificationApprovals : List (String × (String × JVal))
  agentMessageBuffers : List (String × String)
  seenThreads : List String
  commandExecutions : List (String × CmdExec)
  nextId : Int
  initRequestId : Option Int
  ready : ReadyState

/-- State right after the constructor ran `startHandshake` (the
`initialize` call took id 1). -/
def initialState : BridgeState where
  pendingRequests := []
  pendingApprovals := []
  threadContexts := []
  turnToThread := []
  pendingThreadNotifications := []
  pendingNotificationApprovals := []
  agentMessageBuffers := []
  seenThreads := []
  commandExecutions := []
  nextId := 2
  initRequestId := some 1
  ready := .pendingReady

/-- A JSON line written to the peer. -/
inductive OutMsg where
  | request (method : String) (id : Int) (params : JVal)
  | notifyMsg (method : String) (params : JVal)
  | respMsg (id : Int) (result : JVal)
  | errResponse (id : Int) (code : Int) (message : String)

/-- The payload of an emitted domain event. -/
inductive EPayload where
  | threadStarted (threadId : String)
  | turnStarted (threadId : String)
  | turnCompleted (threadId : String) (status : Option JVal) (error : Option JVal)
  | itemLifecycle (threadId : String) (item : JVal)
  | cmdItemStarted (threadId : String) (callId : String) (command : Option String) (cwd : Option JVal)
  | cmdItemCompleted (threadId : String) (callId : String) (exitCode : Option JVal) (durationMs : Option JVal)
  | deltaPayload (threadId : String) (itemId : Option JVal) (kind : String) (delta : JVal)
      (summaryIndex : Option JVal)
  | approvalPayload (id : String) (sessionId : String) (turnId : String) (kind : String)
      (title : String) (riskLevel : String) (detailsMethod : String) (detailsParams : JVal)
      (detailsCommand : Option String) (status : String) (createdAt : String)
      (codexApprovalId : String) (hasResponder : Bool)
  | errorPayload (message : String) (recoverable : Bool)

/-- An emitted `TransportEvent`; `thread.started` events carry no turn
id, hence the `Option`. -/
structure TEvent where
  type : String
  sessionId : String
  turnId : Option String
  createdAt : String
  payload : EPayload

/-- Everything the bridge does that a caller or the peer can observe. -/
inductive Effect where
  | send (m : OutMsg)
  | emit (e : TEvent)
  | resolveCall (id : Int) (result : JVal)
  | rejectCall (id : Int) (message : String)
  | readyOk
  | readyErr (message : String)

/-! ## Identity resolution -/

/-- Step 1 of `resolveSessionId`: a truthy thread id with a recorded
context yields its session. -/
def sessionFromThread (st : BridgeState) (threadId : Option String) : Option String :=
  match threadId with
  | some t =>
    if t.isEmpty then none
    else (assocFind? st.threadContexts t).map (fun ctx => ctx.sessionId)
  | none => none

/-- Step 2 of `resolveSessionId`: a truthy turn id present in the
turn-to-thread index yields the owning thread session when recorded,
otherwise the owning thread id itself (`thread ?? turnId` with a
non-nullish `thread`). -/
def sessionFromTurn (st : BridgeState) (turnId : Option String) : Option String :=
  match turnId with
  | some u =>
    if u.isEmpty then none
    else match assocFind? st.turnToThread u with
      | some thread =>
        if !thread.isEmpty then
          match assocFind? st.threadContexts thread with
          | some ctx => some ctx.sessionId
          | none => some thread
        else some thread
      | none => none
  | none => none

/-- `resolveSessionId(threadId?, turnId?)`. -/
def resolveSessionId (st : BridgeState) (threadId turnId : Option String) : String :=
  match sessionFromThread st threadId with
  | some s => s
  | none =>
    match sessionFromTurn st turnId with
    | some s => s
    | none => threadId.getD (turnId.getD "unknown")

/-! ## Approval workflow -/

/-- `emitApprovalRequest(method, params, requestId?)`.  A defined
*truthy* request id (in particular not `0`) makes the ticket
request-backed: the approval id is the stringified request id and a
responder answering that request id is registered.  Otherwise the ticket
is notification-backed: the approval id is extracted from the params or
generated (bumping `nextId`), and the raw method/params are parked in
`pendingNotificationApprovals`. -/
def emitApprovalRequest (st : BridgeState) (method : String) (params : JVal)
    (requestId : Option Int) (now : String) (nowMs : Int) : BridgeState × List Effect :=
  let threadId := resolveThreadId params
  let turnId := (resolveTurnId params).getD "unknown"
  let sessionId := resolveSessionId st threadId (some turnId)
  let reqBacked : Bool := match requestId with | some n => n != 0 | none => false
  let (approvalId, st1) :=
    if reqBacked then
      (toString (requestId.getD 0), st)
    else
      match extractApprovalId params with
      | some s => (s, st)
      | none =>
        ("approval_" ++ toString nowMs ++ "_" ++ toString st.nextId,
         { st with nextId := st.nextId + 1 })
  let kind := if jsIncludes method "commandExecution" then "command" else "file_write"
  let title := if kind == "command" then "Approve command?" else "Approve file edits?"
  let command := extractCommand params
  let st2 :=
    if reqBacked then
      { st1 with pendingApprovals := assocInsert st1.pendingApprovals approvalId (requestId.getD 0) }
    else
      { st1 with pendingNotificationApprovals :=
          assocInsert st1.pendingNotificationApprovals approvalId (method, params) }
  (st2,
   [Effect.emit
      { type := "approval.request"
        sessionId := sessionId
        turnId := some turnId
        createdAt := now
        payload := .approvalPayload approvalId sessionId turnId kind title "med" method params
          command "pending" now approvalId reqBacked }])

/-- `respondApproval(approvalId, decision)`: a request-backed ticket is
answered through its responder and removed; a notification-backed ticket
triggers a fresh `approval/respond` call (and, in the source, is *not*
removed from `pendingNotificationApprovals`). -/
def respondApproval (st : BridgeState) (approvalId decision : String) :
    BridgeState × List Effect :=
  match assocFind? st.pendingApprovals approvalId with
  | some requestId =>
    ({ st with pendingApprovals := assocErase st.pendingApprovals approvalId },
     [Effect.send (.respMsg requestId (.obj [("decision", .str (mapDecision decision))]))])
  | none =>
    match assocFind? st.pendingNotificationApprovals approvalId with
    | some _ =>
      let id := st.nextId
      ({ st with
           nextId := st.nextId + 1
           pendingRequests := assocInsert st.pendingRequests id "approval/respond" },
       [Effect.send (.request "approval/respond" id
          (.obj [("approvalId", .str approvalId), ("decision", .str (mapDecision decision))]))])
    | none => (st, [])

/-! ## Thread lifecycle -/

/-- `emitThreadStarted`: deduplicated through the seen-thread set. -/
def emitThreadStarted (st : BridgeState) (threadId : String) (now : String) :
    BridgeState × List Effect :=
  if st.seenThreads.contains threadId then (st, [])
  else
    let st1 := { st with seenThreads := threadId :: st.seenThreads }
    let sessionId := resolveSessionId st1 (some threadId) none
    (st1,
     [Effect.emit
        { type := "thread.started", sessionId := sessionId, turnId := none,
          createdAt := now, payload := .threadStarted threadId }])

/-- `flushThreadNotification`: replays a deferred peer `thread/started`. -/
def flushThreadNotification (st : BridgeState) (threadId : String) (now : String) :
    BridgeState × List Effect :=
  if st.pendingThreadNotifications.contains threadId then
    emitThreadStarted
      { st with pendingThreadNotifications :=
          st.pendingThreadNotifications.filter (fun x => decide (x ≠ threadId)) }
      threadId now
  else (st, [])

/-- The bookkeeping `createThread` performs once `thread/start` returned a
thread id: session registration, deferred-notification flush, and the
local `thread.started` emission. -/
def createThreadComplete (st : BridgeState) (threadId : String) (ctxSessionId : Option String)
    (cwd : String) (now : String) : BridgeState × List Effect :=
  let sessionId := ctxSessionId.getD threadId
  let st1 := { st with threadContexts := assocInsert st.threadContexts threadId ⟨sessionId, cwd⟩ }
  let r2 := flushThreadNotification st1 threadId now
  let r3 := emitThreadStarted r2.1 threadId now
  (r3.1, r2.2 ++ r3.2)

/-! ## Notification handlers -/

/-- The `thread/started` notification: deferred while the local thread
context does not exist yet. -/
def threadStartedNtf (st : BridgeState) (params : JVal) (now : String) :
    BridgeState × List Effect :=
  match castTruthyString ((params.get "thread").bind (fun t => t.get "id")) with
  | none => (st, [])
  | some threadId =>
    if (assocFind? st.threadContexts threadId).isNone then
      ({ st with pendingThreadNotifications := setAdd st.pendingThreadNotifications threadId }, [])
    else emitThreadStarted st threadId now

/-- The `turn/started` notification. -/
def turnStartedNtf (st : BridgeState) (params : JVal) (now : String) :
    BridgeState × List Effect :=
  match castTruthyString (params.get "threadId"),
        castTruthyString ((params.get "turn").bind (fun t => t.get "id")) with
  | some threadId, some turnId =>
    let st1 := { st with turnToThread := assocInsert st.turnToThread turnId threadId }
    (st1,
     [Effect.emit
        { type := "turn.started", sessionId := resolveSessionId st1 (some threadId) none,
          turnId := some turnId, createdAt := now, payload := .turnStarted threadId }])
  | _, _ => (st, [])

/-- The `turn/completed` notification. -/
def turnCompletedNtf (st : BridgeState) (params : JVal) (now : String) :
    BridgeState × List Effect :=
  match castTruthyString (params.get "threadId"),
        ((params.get "turn").bind (fun t => t.get "id")) with
  | some threadId, some turnIdVal =>
    if turnIdVal.truthy then
      let turn := (params.get "turn").getD .null
      (st,
       [Effect.emit
          { type := "turn.completed", sessionId := resolveSessionId st (some threadId) none,
            turnId := some turnIdVal.jsToString, createdAt := now,
            payload := .turnCompleted threadId (turn.get "status")
              (match turn.get "error" with | some .null => none | v => v) }])
    else (st, [])
  | _, _ => (st, [])

/-- The `item/started` and `item/completed` notifications; completion of
an agent-message item discards its streaming buffer. -/
def itemLifecycleNtf (st : BridgeState) (params : JVal) (now : String) (isStart : Bool) :
    BridgeState × List Effect :=
  match castTruthyString (params.get "threadId"), castTruthyString (params.get "turnId"),
        params.get "item" with
  | some threadId, some turnId, some item =>
    if item.truthy then
      let st1 :=
        if !isStart &&
            (match item.get "type" with | some (.str s) => s == "agentMessage" | _ => false) then
          match item.get "id" with
          | some idVal =>
            if idVal.truthy then
              { st with agentMessageBuffers := assocErase st.agentMessageBuffers idVal.jsToString }
            else st
          | none => st
        else st
      (st1,
       [Effect.emit
          { type := if isStart then "item.started" else "item.completed",
            sessionId := resolveSessionId st1 (some threadId) none,
            turnId := some turnId, createdAt := now,
            payload := .itemLifecycle threadId item }])
    else (st, [])
  | _, _, _ => (st, [])

/-- The `item/agentMessage/delta` notification: buffers the fragment and
emits an `item.delta` of kind `agentMessage`. -/
def agentMessageDeltaNtf (st : BridgeState) (params : JVal) (now : String) :
    BridgeState × List Effect :=
  match castTruthyString (params.get "threadId"), castTruthyString (params.get "turnId"),
        castTruthyString (params.get "delta") with
  | some threadId, some turnId, some delta =>
    let st1 :=
      match castTruthyString (params.get "itemId") with
      | some itemId =>
        let current := (assocFind? st.agentMessageBuffers itemId).getD ""
        { st with agentMessageBuffers := assocInsert st.agentMessageBuffers itemId (current ++ delta) }
      | none => st
    (st1,
     [Effect.emit
        { type := "item.delta", sessionId := resolveSessionId st1 (some threadId) none,
          turnId := some turnId, createdAt := now,
          payload := .deltaPayload threadId (params.get "itemId") "agentMessage" (.str delta) none }])
  | _, _, _ => (st, [])

/-- The `item/commandExecution/outputDelta` notification. -/
def commandOutputDeltaNtf (st : BridgeState) (params : JVal) (now : String) :
    BridgeState × List Effect :=
  match castTruthyString (params.get "threadId"), castTruthyString (params.get "turnId"),
        castTruthyString (params.get "delta") with
  | some threadId, some turnId, some delta =>
    (st,
     [Effect.emit
        { type := "item.delta", sessionId := resolveSessionId st (some threadId) none,
          turnId := some turnId, createdAt := now,
          payload := .deltaPayload threadId (params.get "itemId") "commandOutput" (.str delta) none }])
  | _, _, _ => (st, [])

/-- The `item/reasoning/summaryTextDelta` notification. -/
def reasoningDeltaNtf (st : BridgeState) (params : JVal) (now : String) :
    BridgeState × List Effect :=
  match castTruthyString (params.get "threadId"), castTruthyString (params.get "turnId"),
        castTruthyString (params.get "delta") with
  | some threadId, some turnId, some delta =>
    (st,
     [Effect.emit
        { type := "item.delta", sessionId := resolveSessionId st (some threadId) none,
          turnId := some turnId, createdAt := now,
          payload := .deltaPayload threadId (params.get "itemId") "reasoningSummary" (.str delta)
            (params.get "summaryIndex") }])
  | _, _, _ => (st, [])

/-! ## Low-level `codex/event/*` notifications -/

/-- `String(msg.call_id ?? msg.callId ?? "")`. -/
def codexCallId (msg : JVal) : String :=
  (nullishD (msg.get "call_id") (nullishD (msg.get "callId") (.str ""))).jsToString

/-- The thread id of a `codex/event/*` notification:
`resolveThreadId(params) ?? resolveThreadId(msg)`. -/
def codexThreadId (params msg : JVal) : Option String :=
  nullishOpt (resolveThreadId params) (resolveThreadId msg)

/-- The turn id of a `codex/event/*` notification:
`resolveTurnId(params) ?? resolveTurnId(msg) ?? String(params?.id ?? "")`. -/
def codexTurnId (params msg : JVal) : String :=
  match nullishOpt (resolveTurnId params) (resolveTurnId msg) with
  | some u => u
  | none => (nullishD (params.get "id") (.str "")).jsToString

/-- `codex/event/exec_command_begin`: records the command-execution
context and emits a synthetic `item.started`. -/
def execBeginEvt (st : BridgeState) (threadId : String) (turnId : String) (msg : JVal)
    (now : String) : BridgeState × List Effect :=
  let callId := codexCallId msg
  let command :=
    normalizeCommand
      (some (nullishD (msg.get "command") (nullishD (msg.get "parsed_cmd")
        (nullishD (msg.get "parsedCmd") .null))))
  let cwd :=
    match msg.get "cwd" with
    | some v => if v.truthy then some v.jsToString else none
    | none => none
  let st1 :=
    { st with commandExecutions :=
        assocInsert st.commandExecutions callId ⟨some threadId, some turnId, command, cwd⟩ }
  (st1,
   [Effect.emit
      { type := "item.started", sessionId := resolveSessionId st1 (some threadId) (some turnId),
        turnId := some turnId, createdAt := now,
        payload := .cmdItemStarted threadId callId command
          (match msg.get "cwd" with | some .null => none | v => v) }])

/-- `codex/event/exec_command_output_delta`: decodes the chunk and emits
an `item.delta` attributed through the recorded execution context; an
empty decoded delta suppresses the event. -/
def execOutputDeltaEvt (st : BridgeState) (threadId : String) (turnId : String) (msg : JVal)
    (now : String) : BridgeState × List Effect :=
  let callId := codexCallId msg
  let chunk := match msg.get "chunk" with | some (.str s) => s | _ => ""
  let delta := decodeChunk chunk
  let context := assocFind? st.commandExecutions callId
  let resolvedThreadId := (context.bind (fun c => c.threadId)).getD threadId
  let resolvedTurnId := (context.bind (fun c => c.turnId)).getD turnId
  if delta.isEmpty then (st, [])
  else
    (st,
     [Effect.emit
        { type := "item.delta",
          sessionId := resolveSessionId st (some resolvedThreadId) (some resolvedTurnId),
          turnId := some resolvedTurnId, createdAt := now,
          payload := .deltaPayload resolvedThreadId (some (.str callId)) "commandOutput"
            (.str delta) none }])

/-- `codex/event/exec_command_end`: discards the execution context and
emits an `item.completed` attributed through it. -/
def execEndEvt (st : BridgeState) (threadId : String) (turnId : String) (msg : JVal)
    (now : String) : BridgeState × List Effect :=
  let callId := codexCallId msg
  let context := assocFind? st.commandExecutions callId
  let st1 := { st with commandExecutions := assocErase st.commandExecutions callId }
  let resolvedThreadId := (context.bind (fun c => c.threadId)).getD threadId
  let resolvedTurnId := (context.bind (fun c => c.turnId)).getD turnId
  (st1,
   [Effect.emit
      { type := "item.completed",
        sessionId := resolveSessionId st1 (some resolvedThreadId) (some resolvedTurnId),
        turnId := some resolvedTurnId, createdAt := now,
        payload := .cmdItemCompleted resolvedThreadId callId
          (match nullishField (msg.get "exit_code") (msg.get "exitCode") with
           | some .null => none | v => v)
          (match nullishField (msg.get "duration_ms") (msg.get "durationMs") with
           | some .null => none | v => v) }])

/-- `codex/event/agent_message_content_delta` and
`codex/event/agent_message_delta`: an empty delta is suppressed. -/
def agentMessageEvt (st : BridgeState) (threadId : String) (turnId : String) (msg : JVal)
    (now : String) : BridgeState × List Effect :=
  let delta :=
    (nullishD (msg.get "delta") (nullishD (msg.get "content")
      (nullishD (msg.get "text") (.str "")))).jsToString
  if delta.isEmpty then (st, [])
  else
    (st,
     [Effect.emit
        { type := "item.delta", sessionId := resolveSessionId st (some threadId) (some turnId),
          turnId := some turnId, createdAt := now,
          payload := .deltaPayload threadId none "agentMessage" (.str delta) none }])

/-- `handleCodexEvent`: the nested sub-dispatcher for low-level events.
Notifications whose thread or turn id stays unresolvable are dropped
before any per-method handling. -/
def handleCodexEvent (st : BridgeState) (method : String) (params : JVal) (now : String) :
    BridgeState × List Effect :=
  let msg := nullishD (params.get "msg") (.obj [])
  let threadIdOpt := codexThreadId params msg
  let turnId := codexTurnId params msg
  match threadIdOpt with
  | none => (st, [])
  | some threadId =>
    if threadId.isEmpty || turnId.isEmpty then (st, [])
    else if method == "codex/event/exec_command_begin" then
      execBeginEvt st threadId turnId msg now
    else if method == "codex/event/exec_command_output_delta" then
      execOutputDeltaEvt st threadId turnId msg now
    else if method == "codex/event/exec_command_end" then
      execEndEvt st threadId turnId msg now
    else if method == "codex/event/agent_message_content_delta" ||
        method == "codex/event/agent_message_delta" then
      agentMessageEvt st threadId turnId msg now
    else (st, [])

/-- `handleNotification`: routes a notification by method name, in source
order. -/
def handleNotification (st : BridgeState) (method : String) (params : JVal) (now : String)
    (nowMs : Int) : BridgeState × List Effect :=
  if strStartsWith method "codex/event/" then handleCodexEvent st method params now
  else if method == "thread/started" then threadStartedNtf st params now
  else if method == "turn/started" then turnStartedNtf st params now
  else if method == "turn/completed" then turnCompletedNtf st params now
  else if method == "item/started" then itemLifecycleNtf st params now true
  else if method == "item/completed" then itemLifecycleNtf st params now false
  else if method == "item/agentMessage/delta" then agentMessageDeltaNtf st params now
  else if method == "item/commandExecution/outputDelta" then commandOutputDeltaNtf st params now
  else if method == "item/reasoning/summaryTextDelta" then reasoningDeltaNtf st params now
  else if method == "item/commandExecution/requestApproval" ||
      method == "item/fileChange/requestApproval" then
    emitApprovalRequest st method params none now nowMs
  else (st, [])

/-! ## Peer-initiated requests, responses, process exit -/

/-- `handleServerRequest`: approval methods are routed to the approval
emitter with the request id attached, everything else is answered with an
RPC error so the peer is never left waiting. -/
def handleServerRequest (st : BridgeState) (id : Int) (method : String) (params : JVal)
    (now : String) (nowMs : Int) : BridgeState × List Effect :=
  if jsIncludes method "requestApproval" then
    emitApprovalRequest st method params (some id) now nowMs
  else
    (st, [Effect.send (.errResponse id (-32000) ("Unhandled request: " ++ method))])

/-- `msg.error?.message ?? fallback`, with the string coercion an
`Error` constructor would apply. -/
def errMessageOf (e : JVal) (fallback : String) : String :=
  match e.get "message" with
  | some .null => fallback
  | some v => v.jsToString
  | none => fallback

/-- The `if (msg.error)` test: the error field is present *and* truthy.
A response whose error is `null`, `false`, `0` or `""` does not count as
errored. -/
def errorTruthy (error : Option JVal) : Bool :=
  match error with
  | some v => v.truthy
  | none => false

/-- `msg.error?.message ?? fallback` read from the optional error field. -/
def errMessageOpt (error : Option JVal) (fallback : String) : String :=
  match error with
  | some e => errMessageOf e fallback
  | none => fallback

/-- `handleResponse`: the initialize response drives the handshake; other
ids settle the matching pending call; unknown ids are ignored.  Both
error branches follow the source's `if (msg.error)` truthiness test, and
settling the readiness promise is a no-op once it is already settled. -/
def handleResponse (st : BridgeState) (id : Int) (error : Option JVal) (result : JVal) :
    BridgeState × List Effect :=
  if st.initRequestId = some id then
    if errorTruthy error then
      let message := errMessageOpt error "initialize failed"
      if st.ready = .pendingReady then
        ({ st with ready := .failedReady message }, [Effect.readyErr message])
      else (st, [])
    else
      let st1 :=
        { st with ready := if st.ready = .pendingReady then .resolvedReady else st.ready,
                  initRequestId := none }
      (st1,
       Effect.send (.notifyMsg "initialized" (.obj [])) ::
         (if st.ready = .pendingReady then [Effect.readyOk] else []))
  else
    match assocFind? st.pendingRequests id with
    | none => (st, [])
    | some method =>
      let st1 := { st with pendingRequests := assocErase st.pendingRequests id }
      if errorTruthy error then
        (st1, [Effect.rejectCall id (errMessageOpt error ("RPC error: " ++ method))])
      else (st1, [Effect.resolveCall id result])

/-- The message built by the `exit` listener. -/
def exitMessage (code : Option Int) (signal : Option String) : String :=
  "codex app-server exited (code=" ++ (match code with | some c => toString c | none => "?") ++
    " signal=" ++ signal.getD "?" ++ ")"

/-- The `exit` listener: `failAll` rejects the readiness promise (a no-op
when already settled) and every pending call, clears the table, then one
synthetic recoverable error event is emitted with unknown identities. -/
def handleExit (st : BridgeState) (code : Option Int) (signal : Option String) (now : String) :
    BridgeState × List Effect :=
  let message := exitMessage code signal
  let readyEffs := if st.ready = .pendingReady then [Effect.readyErr message] else []
  let rejections := st.pendingRequests.map (fun p => Effect.rejectCall p.1 message)
  ({ st with
       pendingRequests := []
       ready := if st.ready = .pendingReady then .failedReady message else st.ready },
   readyEffs ++ rejections ++
     [Effect.emit
        { type := "error", sessionId := "unknown", turnId := some "unknown",
          createdAt := now, payload := .errorPayload message true }])

/-- `cancel(targetId)`: `await this.ready` happens before the try block,
so a rejected readiness promise propagates to the caller; once ready, the
`turn/cancel` call is issued and any failure of it is swallowed.  `none`
models a readiness promise that never settles. -/
def cancel (st : BridgeState) (targetId : String) :
    Option (Except String (BridgeState × List Effect)) :=
  match st.ready with
  | .pendingReady => none
  | .failedReady e => some (.error e)
  | .resolvedReady =>
    let id := st.nextId
    some (.ok
      ({ st with
           nextId := st.nextId + 1
           pendingRequests := assocInsert st.pendingRequests id "turn/cancel" },
       [Effect.send (.request "turn/cancel" id (.obj [("turnId", .str targetId)]))]))

/-! ## Inbound line classification and the step relation -/

/-- The classification in `handleLine`: `method` plus a defined `id`
(zero included) is a peer-initiated request; a defined `id` alone is a
response; a `method` alone is a notification. -/
inductive LineClass where
  | serverRequest
  | response
  | notificationLine
  | ignored
deriving DecidableEq, Repr

/-- `handleLine` routing on the presence of `method` and `id`. -/
def classifyLine (hasMethod : Bool) (hasId : Bool) : LineClass :=
  if hasMethod && hasId then .serverRequest
  else if hasId then .response
  else if hasMethod then .notificationLine
  else .ignored

/-- One externally triggered reaction of the bridge. -/
inductive BAction where
  | notify (method : String) (params : JVal) (now : String) (nowMs : Int)
  | serverRequest (id : Int) (method : String) (params : JVal) (now : String) (nowMs : Int)
  | response (id : Int) (error : Option JVal) (result : JVal)
  | processExit (code : Option Int) (signal : Option String) (now : String)
  | createThreadOk (threadId : String) (ctxSessionId : Option String) (cwd : String) (now : String)
  | turnStartOk (turnId : String) (threadId : String)
  | respondOk (approvalId : String) (decision : String)
  | cancelReq (targetId : String)

/-- The single-step transition of the bridge. -/
def step (st : BridgeState) (a : BAction) : BridgeState × List Effect :=
  match a with
  | .notify method params now nowMs => handleNotification st method params now nowMs
  | .serverRequest id method params now nowMs => handleServerRequest st id method params now nowMs
  | .response id error result => handleResponse st id error result
  | .processExit code signal now => handleExit st code signal now
  | .createThreadOk threadId sess cwd now => createThreadComplete st threadId sess cwd now
  | .turnStartOk turnId threadId =>
    ({ st with turnToThread := assocInsert st.turnToThread turnId threadId }, [])
  | .respondOk approvalId decision => respondApproval st approvalId decision
  | .cancelReq targetId =>
    match cancel st targetId with
    | some (.ok r) => r
    | _ => (st, [])

/-- Runs a sequence of reactions, accumulating all effects in order. -/
def runTrace (st : BridgeState) : List BAction → BridgeState × List Effect
  | [] => (st, [])
  | a :: rest =>
    let r1 := step st a
    let r2 := runTrace r1.1 rest
    (r2.1, r1.2 ++ r2.2)

/-! ## Projections and predicates used by the verified properties -/

/-- Is the effect a promise rejection? -/
def Effect.isReject : Effect → Bool
  | .rejectCall _ _ => true
  | _ => false

/-- Is the effect an emitted domain event? -/
def Effect.isEmit : Effect → Bool
  | .emit _ => true
  | _ => false

/-- Is the effect a message written to the peer? -/
def Effect.isSend : Effect → Bool
  | .send _ => true
  | _ => false

/-- The thread id carried by an event payload, when it has one. -/
def payloadThreadId : EPayload → Option String
  | .threadStarted t => some t
  | .turnStarted t => some t
  | .turnCompleted t _ _ => some t
  | .itemLifecycle t _ => some t
  | .cmdItemStarted t _ _ _ => some t
  | .cmdItemCompleted t _ _ _ => some t
  | .deltaPayload t _ _ _ _ => some t
  | .approvalPayload _ _ _ _ _ _ _ _ _ _ _ _ _ => none
  | .errorPayload _ _ => none

/-- `createThread` first awaits the shared readiness promise, so it can
proceed exactly when that promise has resolved. -/
def readyToCall (st : BridgeState) : Prop :=
  st.ready = .resolvedReady

/-- An emitted event that is not an approval request yet carries an
"unknown" session or turn identity. -/
def badUnknownEmit : Effect → Bool
  | .emit ev =>
    ev.type != "approval.request" && (ev.sessionId == "unknown" || ev.turnId == some "unknown")
  | _ => false

/-- An emitted event that is not an approval request. -/
def nonApprovalEmit : Effect → Bool
  | .emit ev => ev.type != "approval.request"
  | _ => false

/-- The stored identities never collide with the literal "unknown": no
recorded session, turn-owner, or execution-context identity is the string
"unknown".  Holds for every state reachable from honest peers. -/
def NoUnknownState (st : BridgeState) : Prop :=
  (∀ p ∈ st.threadContexts, (Prod.snd p).sessionId ≠ "unknown") ∧
  (∀ p ∈ st.turnToThread, Prod.snd p ≠ "unknown") ∧
  (∀ p ∈ st.commandExecutions,
    (Prod.snd p).threadId ≠ some "unknown" ∧ (Prod.snd p).turnId ≠ some "unknown")

/-- The notification payload does not itself spell any of its identities
as the literal "unknown". -/
def ParamsAvoidUnknown (params : JVal) : Prop :=
  (∀ s, resolveThreadId params = some s → s ≠ "unknown") ∧
  (∀ s, resolveTurnId params = some s → s ≠ "unknown") ∧
  (∀ s, resolveThreadId (nullishD (params.get "msg") (.obj [])) = some s → s ≠ "unknown") ∧
  (∀ s, resolveTurnId (nullishD (params.get "msg") (.obj [])) = some s → s ≠ "unknown") ∧
  (∀ v, params.get "threadId" = some v → v.jsToString ≠ "unknown") ∧
  (∀ v, params.get "turnId" = some v → v.jsToString ≠ "unknown") ∧
  (∀ v, (params.get "thread").bind (fun t => t.get "id") = some v → v.jsToString ≠ "unknown") ∧
  (∀ v, (params.get "turn").bind (fun t => t.get "id") = some v → v.jsToString ≠ "unknown") ∧
  (∀ v, params.get "id" = some v → v.jsToString ≠ "unknown")

/-- Counts the `thread.started` emissions for one thread id. -/
def isThreadStartedEmit (t : String) : Effect → Bool
  | .emit ev =>
    ev.type == "thread.started" &&
      (match ev.payload with | .threadStarted tid => tid == t | _ => false)
  | _ => false

/-- How many `thread.started` events for thread `t` a list of effects
contains. -/
def threadStartedCount (effs : List Effect) (t : String) : Nat :=
  effs.countP (isThreadStartedEmit t)

/-- Does the trace contain the local `createThread` completion for `t`? -/
def hasCreateFor (trace : List BAction) (t : String) : Bool :=
  trace.any (fun a => match a with | .createThreadOk tid _ _ _ => tid == t | _ => false)

/-! ## The session-id resolution rules as the specification words them -/

/-- Modelled from the specified precedence, read literally: (1) the
recorded session of a registered thread id; (2) the recorded session of
the thread owning a registered turn id; (3) the raw thread id; (4) the
raw turn id; (5) "unknown".  Rule 2 only produces a value when the owning
thread has a recorded session, so an owning thread without one falls
through to rule 3. -/
def claimedSessionSpec (st : BridgeState) (threadId turnId : Option String) : String :=
  match threadId.bind (fun t => if t.isEmpty then none else assocFind? st.threadContexts t) with
  | some ctx => ctx.sessionId
  | none =>
    match turnId.bind (fun u =>
        if u.isEmpty then none
        else (assocFind? st.turnToThread u).bind (fun th => assocFind? st.threadContexts th)) with
    | some ctx => ctx.sessionId
    | none => threadId.getD (turnId.getD "unknown")

/-- The precedence the implementation actually applies: rule 2 answers
whenever the turn id is registered, yielding the owning thread session
when recorded and otherwise the owning thread id itself. -/
def amendedSessionSpec (st : BridgeState) (threadId turnId : Option String) : String :=
  match threadId.bind (fun t => if t.isEmpty then none else assocFind? st.threadContexts t) with
  | some ctx => ctx.sessionId
  | none =>
    match turnId.bind (fun u => if u.isEmpty then none else assocFind? st.turnToThread u) with
    | some th =>
      (match (if th.isEmpty then none else assocFind? st.threadContexts th) with
       | some ctx => ctx.sessionId
       | none => th)
    | none => threadId.getD (turnId.getD "unknown")

/-! ## Concrete fixtures -/

/-- A state with one notification-backed approval ticket pending. -/
def stNotifApproval : BridgeState :=
  { initialState with
      pendingNotificationApprovals :=
        [("appr_1", ("item/commandExecution/requestApproval", JVal.obj []))] }

/-- A state with one request-backed approval ticket pending. -/
def stReqApproval : BridgeState :=
  { initialState with pendingApprovals := [("7", 7)] }

/-- A state whose turn index maps a turn to a thread that has no recorded
context. -/
def stOrphanTurn : BridgeState :=
  { initialState with turnToThread := [("U1", "T2")] }

/-- A state whose readiness promise has rejected (handshake failure or
process loss). -/
def stFailedReady : BridgeState :=
  { initialState with ready := .failedReady "codex app-server exited (code=1 signal=?)" }

/-- A state whose readiness promise has resolved. -/
def stResolvedReady : BridgeState :=
  { initialState with ready := .resolvedReady }

/-- A fully addressed `exec_command_begin` notification. -/
def beginParams : JVal :=
  .obj [("threadId", .str "T"), ("turnId", .str "U"),
        ("msg", .obj [("call_id", .str "C"), ("command", .str "ls")])]

/-- An output-delta notification that omits every thread/turn field. -/
def bareDeltaParams : JVal :=
  .obj [("msg", .obj [("call_id", .str "C"), ("chunk", .str "hi")])]

/-- An output-delta notification carrying thread/turn ids that differ
from the ones captured at begin. -/
def richDeltaParams : JVal :=
  .obj [("threadId", .str "T2"), ("turnId", .str "U2"),
        ("msg", .obj [("call_id", .str "C"), ("chunk", .str "hi")])]

/-- The state right after the begin notification was handled. -/
def stAfterBegin : BridgeState :=
  (handleCodexEvent initialState "codex/event/exec_command_begin" beginParams "t0").1

/-- An output-delta notification over a parametric chunk. -/
def outputDeltaParams (threadId turnId callId chunk : String) : JVal :=
  .obj [("threadId", .str threadId), ("turnId", .str turnId),
        ("msg", .obj [("call_id", .str callId), ("chunk", .str chunk)])]

/-- A trace where the peer announces thread "T1" before the local
creation path completes, and once more afterwards. -/
def raceTrace : List BAction :=
  [.notify "thread/started" (.obj [("thread", .obj [("id", .str "T1")])]) "t0" 0,
   .createThreadOk "T1" (some "S1") "/w" "t1",
   .notify "thread/started" (.obj [("thread", .obj [("id", .str "T1")])]) "t2" 0]

/-- A fully addressed `turn/started` notification payload. -/
def turnStartedParams : JVal :=
  .obj [("threadId", .str "T"), ("turn", .obj [("id", .str "U")])]

/-- A state with two outbound calls in flight. -/
def stTwoPending : BridgeState :=
  { initialState with
      pendingRequests := [(2, "thread/start"), (3, "turn/start")], nextId := 4 }

/-- The approval id a notification-backed ticket receives. -/
def approvalIdFor (params : JVal) (nowMs : Int) (nid : Int) : String :=
  match extractApprovalId params with
  | some s => s
  | none => "approval_" ++ toString nowMs ++ "_" ++ toString nid

/-- 1 when the thread id is in the seen-thread set, else 0. -/
def seenFlag (st : BridgeState) (t : String) : Nat :=
  if t ∈ st.seenThreads then 1 else 0

/-- An emitted event carrying an "unknown" session or turn identity. -/
def unknownIdEmit : Effect → Bool
  | .emit ev => ev.sessionId == "unknown" || ev.turnId == some "unknown"
  | _ => false

/-! ## Association-list lemmas -/

theorem assocFind?_insert_self {α β : Type} [DecidableEq α] (l : List (α × β)) (k : α) (v : β) :
    assocFind? (assocInsert l k v) k = some v := by
  induction l with
  | nil => simp [assocInsert, assocFind?]
  | cons p rest ih =>
    obtain ⟨k', v'⟩ := p
    by_cases h : k' = k
    · simp [assocInsert, assocFind?, h]
    · simp [assocInsert, assocFind?, h, ih]

theorem assocFind?_erase_self {α β : Type} [DecidableEq α] (l : List (α × β)) (k : α) :
    assocFind? (assocErase l k) k = none := by
  induction l with
  | nil => simp [assocErase, assocFind?]
  | cons p rest ih =>
    obtain ⟨k', v'⟩ := p
    by_cases h : k' = k
    · simpa [assocErase, List.filter, h] using ih
    · simpa [assocErase, List.filter, h, assocFind?] using ih

theorem assocFind?_mem {α β : Type} [DecidableEq α] {l : List (α × β)} {k : α} {v : β}
    (h : assocFind? l k = some v) : (k, v) ∈ l := by
  induction l with
  | nil => simp [assocFind?] at h
  | cons p rest ih =>
    obtain ⟨k', v'⟩ := p
    by_cases hk : k' = k
    · subst hk
      simp [assocFind?] at h
      simp [h]
    · simp only [assocFind?, if_neg hk] at h
      exact List.mem_cons_of_mem _ (ih h)

/-! ## C9: cancel and the readiness promise -/

/-- C9 counterexample: with the readiness promise rejected (as after a
process loss), `cancel` rejects to its caller — `await this.ready` sits
outside the try/catch — refuting "cancel never rejects in every bridge
state". -/
theorem cancel_rejects_after_ready_failure :
    cancel stFailedReady "turn_1" =
      some (Except.error "codex app-server exited (code=1 signal=?)") := rfl

/-- C9 (amended): once the readiness promise has resolved, `cancel` never
rejects: every failure of the underlying `turn/cancel` call is swallowed
and the call returns normally. -/
theorem cancel_never_rejects_when_ready (st : BridgeState) (targetId : String)
    (h : st.ready = .resolvedReady) :
    ∃ st1 effs, cancel st targetId = some (Except.ok (st1, effs)) := by
  refine ⟨{ st with
              nextId := st.nextId + 1
              pendingRequests := assocInsert st.pendingRequests st.nextId "turn/cancel" },
          [Effect.send (.request "turn/cancel" st.nextId (.obj [("turnId", .str targetId)]))], ?_⟩
  simp [cancel, h]

/-- Witness for C9 (amended) at a concrete ready state. -/
theorem cancel_never_rejects_when_ready_witness :
    ∃ st1 effs, cancel stResolvedReady "turn_1" = some (Except.ok (st1, effs)) :=
  cancel_never_rejects_when_ready stResolvedReady "turn_1" rfl

/-! ## C10: a peer request with numeric id 0 -/

/-- C10: a peer-initiated approval call whose id is `0` is classified as a
server request by the dispatcher, but the falsy id makes the approval
ticket notification-backed: the approval id comes from the params (or is
generated), no responder is registered in `pendingApprovals`, and the
only effect is the `approval.request` event — no response for id 0 is
ever written. -/
theorem zero_id_approval_is_notification_backed (st : BridgeState) (params : JVal)
    (now : String) (nowMs : Int) :
    classifyLine true true = LineClass.serverRequest ∧
    (handleServerRequest st 0 "item/commandExecution/requestApproval" params now nowMs).1.pendingApprovals =
      st.pendingApprovals ∧
    assocFind?
      (handleServerRequest st 0 "item/commandExecution/requestApproval" params now nowMs).1.pendingNotificationApprovals
      (approvalIdFor params nowMs st.nextId) =
      some ("item/commandExecution/requestApproval", params) ∧
    (∃ sess uid,
      (handleServerRequest st 0 "item/commandExecution/requestApproval" params now nowMs).2 =
        [Effect.emit
          { type := "approval.request", sessionId := sess, turnId := some uid, createdAt := now,
            payload := .approvalPayload (approvalIdFor params nowMs st.nextId) sess uid
              "command" "Approve command?" "med" "item/commandExecution/requestApproval" params
              (extractCommand params) "pending" now (approvalIdFor params nowMs st.nextId) false }]) := by
  have hincl : jsIncludes "item/commandExecution/requestApproval" "requestApproval" = true := by
    decide
  have hcmd : jsIncludes "item/commandExecution/requestApproval" "commandExecution" = true := by
    decide
  refine ⟨rfl, ?_, ?_, ?_⟩
  · unfold handleServerRequest emitApprovalRequest
    rcases h : extractApprovalId params with _ | s <;>
      simp [hincl, h]
  · unfold handleServerRequest emitApprovalRequest
    rcases h : extractApprovalId params with _ | s <;>
      simp [hincl, h, approvalIdFor, assocFind?_insert_self]
  · refine ⟨resolveSessionId st (resolveThreadId params)
        (some ((resolveTurnId params).getD "unknown")),
      (resolveTurnId params).getD "unknown", ?_⟩
    unfold handleServerRequest emitApprovalRequest
    rcases h : extractApprovalId params with _ | s <;>
      simp [hincl, hcmd, h, approvalIdFor]

/-! ## C7: unexpected process exit -/

/-- C7: on process exit the pending-call table is emptied, every pending
call is rejected with the descriptive exit message, and exactly one
domain event is emitted — the synthetic error event flagged
`recoverable: true` with "unknown" identities. -/
theorem process_exit_rejects_all_and_emits_once (st : BridgeState) (code : Option Int)
    (signal : Option String) (now : String) :
    (handleExit st code signal now).1.pendingRequests = [] ∧
    List.filter Effect.isReject (handleExit st code signal now).2 =
      st.pendingRequests.map (fun p => Effect.rejectCall p.1 (exitMessage code signal)) ∧
    List.filter Effect.isEmit (handleExit st code signal now).2 =
      [Effect.emit
        { type := "error", sessionId := "unknown", turnId := some "unknown", createdAt := now,
          payload := .errorPayload (exitMessage code signal) true }] := by
  refine ⟨rfl, ?_, ?_⟩
  · unfold handleExit
    simp only [List.filter_append]
    have h1 : List.filter Effect.isReject
        (if st.ready = .pendingReady then [Effect.readyErr (exitMessage code signal)] else []) = [] := by
      split <;> simp [Effect.isReject]
    have h2 : List.filter Effect.isReject
        (st.pendingRequests.map (fun p => Effect.rejectCall p.1 (exitMessage code signal))) =
        st.pendingRequests.map (fun p => Effect.rejectCall p.1 (exitMessage code signal)) := by
      rw [List.filter_eq_self]
      intro a ha
      obtain ⟨p, _, hp⟩ := List.mem_map.mp ha
      rw [← hp]
      rfl
    simp [h1, h2, Effect.isReject]
  · unfold handleExit
    simp only [List.filter_append]
    have h1 : List.filter Effect.isEmit
        (if st.ready = .pendingReady then [Effect.readyErr (exitMessage code signal)] else []) = [] := by
      split <;> simp [Effect.isEmit]
    have h2 : List.filter Effect.isEmit
        (st.pendingRequests.map (fun p => Effect.rejectCall p.1 (exitMessage code signal))) = [] := by
      rw [List.filter_eq_nil]
      intro a ha
      obtain ⟨p, _, hp⟩ := List.mem_map.mp ha
      rw [← hp]
      simp [Effect.isEmit]
    simp [h1, h2, Effect.isEmit]

/-! ## C8: the initialize response -/

/-- C8: while the handshake is outstanding, a response matching the
recorded initialize id with no error makes the bridge send the
`initialized` notification, resolve the readiness promise (so
`createThread` can proceed), and clear the recorded id; a response
carrying an error (a truthy `error` field, per the source's
`if (msg.error)` test) rejects the readiness promise instead. -/
theorem initialize_response_drives_handshake (st : BridgeState) (i : Int) (result e : JVal)
    (hinit : st.initRequestId = some i) (hready : st.ready = .pendingReady)
    (he : e.truthy = true) :
    handleResponse st i none result =
      ({ st with ready := .resolvedReady, initRequestId := none },
       [Effect.send (.notifyMsg "initialized" (.obj [])), Effect.readyOk]) ∧
    readyToCall (handleResponse st i none result).1 ∧
    handleResponse st i (some e) result =
      ({ st with ready := .failedReady (errMessageOf e "initialize failed") },
       [Effect.readyErr (errMessageOf e "initialize failed")]) := by
  refine ⟨?_, ?_, ?_⟩
  · simp [handleResponse, errorTruthy, hinit, hready]
  · simp [handleResponse, errorTruthy, hinit, hready, readyToCall]
  · simp [handleResponse, errorTruthy, errMessageOpt, hinit, hready, he]

/-- Witness for C8 at the freshly constructed bridge state. -/
theorem initialize_response_drives_handshake_witness :
    handleResponse initialState 1 none (.obj [("userAgent", .obj [])]) =
      ({ initialState with ready := .resolvedReady, initRequestId := none },
       [Effect.send (.notifyMsg "initialized" (.obj [])), Effect.readyOk]) ∧
    readyToCall (handleResponse initialState 1 none (.obj [("userAgent", .obj [])])).1 ∧
    handleResponse initialState 1 (some (.obj [("message", .str "boom")]))
        (.obj [("userAgent", .obj [])]) =
      ({ initialState with
           ready := .failedReady (errMessageOf (.obj [("message", .str "boom")]) "initialize failed") },
       [Effect.readyErr (errMessageOf (.obj [("message", .str "boom")]) "initialize failed")]) :=
  initialize_response_drives_handshake initialState 1 (.obj [("userAgent", .obj [])])
    (.obj [("message", .str "boom")]) rfl rfl rfl

/-! ## C1: respondApproval idempotence -/

/-- C1 counterexample: for a notification-backed ticket the source never
deletes the `pendingNotificationApprovals` entry, so a second decision
for the same identifier issues a second `approval/respond` call instead
of being a no-op. -/
theorem respond_twice_notification_backed_sends_twice :
    (respondApproval stNotifApproval "appr_1" "approve_once").2 =
      [Effect.send (.request "approval/respond" 2
        (.obj [("approvalId", .str "appr_1"), ("decision", .str "accept")]))] ∧
    (respondApproval (respondApproval stNotifApproval "appr_1" "approve_once").1
        "appr_1" "approve_once").2 =
      [Effect.send (.request "approval/respond" 3
        (.obj [("approvalId", .str "appr_1"), ("decision", .str "accept")]))] ∧
    ((respondApproval (respondApproval stNotifApproval "appr_1" "approve_once").1
        "appr_1" "approve_once").2.isEmpty) = false := ⟨rfl, rfl, rfl⟩

/-- C1 (amended): a request-backed ticket (whose identifier is not also
parked as notification-backed) is consumed by the first decision and a
second decision is a no-op; a notification-backed ticket, however, is
never consumed: while its entry is pending, every decision issues a fresh
`approval/respond` call and the entry survives. -/
theorem respond_approval_consumption (st : BridgeState) (aid d d2 : String) :
    (∀ requestId, assocFind? st.pendingApprovals aid = some requestId →
      assocFind? st.pendingNotificationApprovals aid = none →
      (respondApproval (respondApproval st aid d).1 aid d2).1 = (respondApproval st aid d).1 ∧
      (respondApproval (respondApproval st aid d).1 aid d2).2 = []) ∧
    (assocFind? st.pendingApprovals aid = none →
      ∀ m p, assocFind? st.pendingNotificationApprovals aid = some (m, p) →
        (respondApproval st aid d).2 =
          [Effect.send (.request "approval/respond" st.nextId
            (.obj [("approvalId", .str aid), ("decision", .str (mapDecision d))]))] ∧
        assocFind? (respondApproval st aid d).1.pendingNotificationApprovals aid = some (m, p)) := by
  constructor
  · intro requestId hreq hnotif
    constructor <;> simp [respondApproval, hreq, hnotif, assocFind?_erase_self]
  · intro hreq m p hnotif
    constructor <;> simp [respondApproval, hreq, hnotif]

/-- Witness for C1 (amended): a request-backed ticket answered twice. -/
theorem respond_approval_consumption_witness :
    (respondApproval (respondApproval stReqApproval "7" "approve_once").1 "7" "deny_once").1 =
      (respondApproval stReqApproval "7" "approve_once").1 ∧
    (respondApproval (respondApproval stReqApproval "7" "approve_once").1 "7" "deny_once").2 = [] :=
  (respond_approval_consumption stReqApproval "7" "approve_once" "deny_once").1 7 rfl rfl

/-! ## C2: session-id resolution precedence -/

/-- C2 counterexample: with no thread contexts and the turn index mapping
"U1" to the unregistered thread "T2", a notification addressed by thread
"T1" and turn "U1" resolves to "T2" — the owning thread id — which is
none of the five values the claimed precedence can produce (the claimed
rules yield the raw thread id "T1" here). -/
theorem session_resolution_claim_counterexample :
    resolveSessionId stOrphanTurn (some "T1") (some "U1") = "T2" ∧
    claimedSessionSpec stOrphanTurn (some "T1") (some "U1") = "T1" ∧
    (("T2" : String) == "T1") = false ∧ (("T2" : String) == "U1") = false ∧
    (("T2" : String) == "unknown") = false ∧
    stOrphanTurn.threadContexts = [] := ⟨rfl, rfl, rfl, rfl, rfl, rfl⟩

/-- C2 (amended): the implemented precedence is (1) the recorded session
of a registered non-empty thread id; (2) for a registered non-empty turn
id, the recorded session of the owning thread when that thread is
registered, otherwise the owning thread id itself; (3) the raw thread id
when present; (4) the raw turn id when present; (5) "unknown".  In
particular, a turn id with no registered mapping and no resolvable
thread id resolves to the turn id itself. -/
theorem session_resolution_precedence (st : BridgeState) (threadId turnId : Option String) :
    resolveSessionId st threadId turnId = amendedSessionSpec st threadId turnId ∧
    (∀ u : String, u.isEmpty = false → assocFind? st.turnToThread u = none →
      resolveSessionId st none (some u) = u) := by
  constructor
  · unfold resolveSessionId amendedSessionSpec sessionFromThread sessionFromTurn
    rcases threadId with _ | t <;> rcases turnId with _ | u
    · rfl
    · by_cases hu : u.isEmpty
      · simp [hu]
      · cases hftu : assocFind? st.turnToThread u with
        | none => simp [hu, hftu]
        | some thread =>
          by_cases hth : thread.isEmpty
          · simp [hu, hftu, hth]
          · cases hctx : assocFind? st.threadContexts thread <;> simp [hu, hftu, hth, hctx]
    · by_cases ht : t.isEmpty
      · simp [ht]
      · cases hf : assocFind? st.threadContexts t <;> simp [ht, hf]
    · by_cases ht : t.isEmpty
      · by_cases hu : u.isEmpty
        · simp [ht, hu]
        · cases hftu : assocFind? st.turnToThread u with
          | none => simp [ht, hu, hftu]
          | some thread =>
            by_cases hth : thread.isEmpty
            · simp [ht, hu, hftu, hth]
            · cases hctx : assocFind? st.threadContexts thread <;> simp [ht, hu, hftu, hth, hctx]
      · cases hf : assocFind? st.threadContexts t with
        | some ctx => simp [ht, hf]
        | none =>
          by_cases hu : u.isEmpty
          · simp [ht, hf, hu]
          · cases hftu : assocFind? st.turnToThread u with
            | none => simp [ht, hf, hu, hftu]
            | some thread =>
              by_cases hth : thread.isEmpty
              · simp [ht, hf, hu, hftu, hth]
              · cases hctx : assocFind? st.threadContexts thread <;>
                  simp [ht, hf, hu, hftu, hth, hctx]
  · intro u hu hftu
    unfold resolveSessionId sessionFromThread sessionFromTurn
    simp [hu, hftu]

/-- Witness for C2 at concrete states: an unmapped turn id resolves to
itself, and the amended precedence agrees with the implementation on the
orphan-turn state. -/
theorem session_resolution_precedence_witness :
    resolveSessionId stOrphanTurn (some "T1") (some "U1") =
      amendedSessionSpec stOrphanTurn (some "T1") (some "U1") ∧
    resolveSessionId stOrphanTurn none (some "U9") = "U9" :=
  ⟨(session_resolution_precedence stOrphanTurn (some "T1") (some "U1")).1,
   (session_resolution_precedence stOrphanTurn none none).2 "U9" rfl rfl⟩

/-! ## C5: output-chunk decoding -/

/-- C5: a chunk of strict base64 shape with length a multiple of four is
emitted as the UTF-8 reading of its base64 decoding; any other non-empty
chunk is emitted verbatim; an empty delta suppresses the event, and the
emitted event carries the decoded delta (attributed through the recorded
execution context when one exists). -/
theorem output_chunk_decoding (st : BridgeState) (chunk threadId turnId callId now : String)
    (ht : threadId.isEmpty = false) (hu : turnId.isEmpty = false) :
    ((chunk.length % 4 == 0 && isBase64Shape chunk) = true →
      decodeChunk chunk = utf8DecodeString (b64DecodeBytes chunk)) ∧
    ((chunk.length % 4 == 0 && isBase64Shape chunk) = false → chunk ≠ "" →
      decodeChunk chunk = chunk) ∧
    (decodeChunk chunk = "" →
      (handleCodexEvent st "codex/event/exec_command_output_delta"
        (outputDeltaParams threadId turnId callId chunk) now).2 = []) ∧
    (decodeChunk chunk ≠ "" →
      (handleCodexEvent st "codex/event/exec_command_output_delta"
        (outputDeltaParams threadId turnId callId chunk) now).2 =
        [Effect.emit
          { type := "item.delta",
            sessionId := resolveSessionId st
              (some (((assocFind? st.commandExecutions callId).bind (fun c => c.threadId)).getD threadId))
              (some (((assocFind? st.commandExecutions callId).bind (fun c => c.turnId)).getD turnId)),
            turnId := some (((assocFind? st.commandExecutions callId).bind (fun c => c.turnId)).getD turnId),
            createdAt := now,
            payload := .deltaPayload
              (((assocFind? st.commandExecutions callId).bind (fun c => c.threadId)).getD threadId)
              (some (.str callId)) "commandOutput" (.str (decodeChunk chunk)) none }]) := by
  have hrun : handleCodexEvent st "codex/event/exec_command_output_delta"
      (outputDeltaParams threadId turnId callId chunk) now =
      execOutputDeltaEvt st threadId turnId
        (.obj [("call_id", .str callId), ("chunk", .str chunk)]) now := by
    unfold handleCodexEvent codexThreadId codexTurnId outputDeltaParams
    simp [resolveThreadId, resolveTurnId, JVal.get, jsOr, nullishD, nullishOpt, JVal.truthy,
      JVal.jsToString, ht, hu]
  refine ⟨?_, ?_, ?_, ?_⟩
  · intro hcond
    by_cases hc : chunk = ""
    · subst hc
      exact absurd hcond (by decide)
    · unfold decodeChunk
      simp [String.isEmpty_iff, hc, hcond]
  · intro hcond hne
    unfold decodeChunk
    simp [String.isEmpty_iff, hne, hcond]
  · intro hdelta
    rw [hrun]
    unfold execOutputDeltaEvt codexCallId
    simp [JVal.get, nullishD, JVal.jsToString, hdelta, String.isEmpty_iff]
  · intro hdelta
    rw [hrun]
    unfold execOutputDeltaEvt codexCallId
    simp [JVal.get, nullishD, JVal.jsToString, hdelta, String.isEmpty_iff]

/-- Witness for C5: "aGk=" is decoded to "hi" and emitted; "hello world"
passes through verbatim. -/
theorem output_chunk_decoding_witness :
    decodeChunk "aGk=" = utf8DecodeString (b64DecodeBytes "aGk=") ∧
    decodeChunk "hello world" = "hello world" ∧
    (handleCodexEvent initialState "codex/event/exec_command_output_delta"
      (outputDeltaParams "T" "U" "C" "aGk=") "t0").2 =
      [Effect.emit
        { type := "item.delta",
          sessionId := resolveSessionId initialState
            (some (((assocFind? initialState.commandExecutions "C").bind (fun c => c.threadId)).getD "T"))
            (some (((assocFind? initialState.commandExecutions "C").bind (fun c => c.turnId)).getD "U")),
          turnId := some (((assocFind? initialState.commandExecutions "C").bind (fun c => c.turnId)).getD "U"),
          createdAt := "t0",
          payload := .deltaPayload
            (((assocFind? initialState.commandExecutions "C").bind (fun c => c.threadId)).getD "T")
            (some (.str "C")) "commandOutput" (.str (decodeChunk "aGk=")) none }] :=
  ⟨(output_chunk_decoding initialState "aGk=" "T" "U" "C" "t0" rfl rfl).1 (by decide),
   (output_chunk_decoding initialState "hello world" "T" "U" "C" "t0" rfl rfl).2.1 (by decide)
     (by decide),
   (output_chunk_decoding initialState "aGk=" "T" "U" "C" "t0" rfl rfl).2.2.2 (by decide)⟩

/-! ## C3: command-execution context attribution -/

/-- C3 counterexample: after a fully addressed begin notification has
recorded the execution context for call "C", output-delta and end
notifications for the same call that omit the thread/turn fields are
dropped by the unresolvable-id guard — no event carrying the captured
thread/turn is emitted, and the context is not even discarded at end. -/
theorem exec_followups_without_ids_are_dropped :
    assocFind? stAfterBegin.commandExecutions "C" = some ⟨some "T", some "U", some "ls", none⟩ ∧
    (handleCodexEvent stAfterBegin "codex/event/exec_command_output_delta" bareDeltaParams "t1").2 = [] ∧
    (handleCodexEvent stAfterBegin "codex/event/exec_command_end" bareDeltaParams "t1").2 = [] ∧
    (handleCodexEvent stAfterBegin "codex/event/exec_command_end" bareDeltaParams "t1").1.commandExecutions =
      stAfterBegin.commandExecutions := ⟨rfl, rfl, rfl, rfl⟩

/-- C3 (amended): when a later output-delta or end notification still
resolves some (possibly different) thread and turn id, the emitted events
carry the thread and turn captured at begin — the recorded execution
context overrides the ids found on the notification itself; notifications
whose ids stay unresolvable are dropped instead. -/
theorem exec_events_report_begin_context (st : BridgeState) (params : JVal)
    (now t u t0 u0 : String) (cmd cwd : Option String)
    (hthread : codexThreadId params (nullishD (params.get "msg") (.obj [])) = some t)
    (ht : t.isEmpty = false)
    (hturn : codexTurnId params (nullishD (params.get "msg") (.obj [])) = u)
    (hu : u.isEmpty = false)
    (hctx : assocFind? st.commandExecutions
        (codexCallId (nullishD (params.get "msg") (.obj []))) = some ⟨some t0, some u0, cmd, cwd⟩) :
    (∀ ev, Effect.emit ev ∈
        (handleCodexEvent st "codex/event/exec_command_output_delta" params now).2 →
      ev.turnId = some u0 ∧ payloadThreadId ev.payload = some t0) ∧
    (∀ ev, Effect.emit ev ∈
        (handleCodexEvent st "codex/event/exec_command_end" params now).2 →
      ev.turnId = some u0 ∧ payloadThreadId ev.payload = some t0) := by
  constructor
  · intro ev hev
    simp only [handleCodexEvent] at hev
    rw [hthread, hturn] at hev
    simp only [ht, hu, Bool.or_self, Bool.false_or, Bool.or_false, if_false] at hev
    simp only [execOutputDeltaEvt] at hev
    rw [hctx] at hev
    simp only [Option.bind_some, Option.getD_some, Option.some_bind] at hev
    by_cases hd : (decodeChunk (match (nullishD (params.get "msg") (.obj [])).get "chunk" with
        | some (.str s) => s | _ => "")).isEmpty
    · simp [hd] at hev
    · simp [hd] at hev
      subst hev
      exact ⟨rfl, rfl⟩
  · intro ev hev
    simp only [handleCodexEvent] at hev
    rw [hthread, hturn] at hev
    simp only [ht, hu, Bool.or_self, Bool.false_or, Bool.or_false, if_false] at hev
    simp only [execEndEvt] at hev
    rw [hctx] at hev
    simp only [Option.bind_some, Option.getD_some, Option.some_bind] at hev
    simp at hev
    subst hev
    exact ⟨rfl, rfl⟩

/-- Witness for C3 (amended): the delta event after begin carries the
captured thread "T" and turn "U" although the notification said "T2"/"U2". -/
theorem exec_events_report_begin_context_witness :
    (({ type := "item.delta", sessionId := "T", turnId := some "U", createdAt := "t1",
        payload := .deltaPayload "T" (some (.str "C")) "commandOutput" (.str "hi") none } :
      TEvent)).turnId = some "U" ∧
    payloadThreadId (EPayload.deltaPayload "T" (some (.str "C")) "commandOutput" (.str "hi") none) =
      some "T" :=
  (exec_events_report_begin_context stAfterBegin richDeltaParams "t1" "T2" "U2" "T" "U"
      (some "ls") none rfl rfl rfl rfl rfl).1
    { type := "item.delta", sessionId := "T", turnId := some "U", createdAt := "t1",
      payload := .deltaPayload "T" (some (.str "C")) "commandOutput" (.str "hi") none }
    (List.mem_cons_self _ _)

/-! ## C6 infrastructure: counting `thread.started` emissions -/

theorem count_glue (st : BridgeState) (r : BridgeState × List Effect) (t : String)
    (hseen : r.1.seenThreads = st.seenThreads)
    (hcount : threadStartedCount r.2 t = 0) :
    threadStartedCount r.2 t + seenFlag st t = seenFlag r.1 t := by
  unfold seenFlag
  rw [hseen, hcount]
  omega

theorem count_zero_of_types (effs : List Effect) (t : String)
    (h : ∀ ev, Effect.emit ev ∈ effs → ev.type ≠ "thread.started") :
    threadStartedCount effs t = 0 := by
  unfold threadStartedCount
  rw [List.countP_eq_zero]
  intro a ha
  cases a with
  | emit ev =>
    have := h ev ha
    simp [isThreadStartedEmit, this]
  | send m => simp [isThreadStartedEmit]
  | resolveCall id result => simp [isThreadStartedEmit]
  | rejectCall id message => simp [isThreadStartedEmit]
  | readyOk => simp [isThreadStartedEmit]
  | readyErr message => simp [isThreadStartedEmit]

theorem emitThreadStarted_spec (st : BridgeState) (tid now t : String) :
    threadStartedCount (emitThreadStarted st tid now).2 t + seenFlag st t =
      seenFlag (emitThreadStarted st tid now).1 t := by
  unfold emitThreadStarted seenFlag threadStartedCount
  by_cases hseen : tid ∈ st.seenThreads
  · simp [hseen]
  · by_cases heq : tid = t
    · subst heq
      simp [hseen, isThreadStartedEmit, List.countP_cons, List.countP_nil, List.mem_cons]
    · have hne : t ≠ tid := fun h => heq h.symm
      simp [hseen, hne, isThreadStartedEmit, List.countP_cons, List.countP_nil,
        List.mem_cons, heq]

theorem seenFlag_congr (st st2 : BridgeState) (t : String)
    (h : st.seenThreads = st2.seenThreads) : seenFlag st t = seenFlag st2 t := by
  unfold seenFlag
  rw [h]

theorem flushThreadNotification_spec (st : BridgeState) (tid now t : String) :
    threadStartedCount (flushThreadNotification st tid now).2 t + seenFlag st t =
      seenFlag (flushThreadNotification st tid now).1 t := by
  unfold flushThreadNotification
  by_cases hp : tid ∈ st.pendingThreadNotifications
  · have hc : st.pendingThreadNotifications.contains tid = true := by simpa using hp
    rw [if_pos hc]
    have h := emitThreadStarted_spec
      { st with pendingThreadNotifications :=
          st.pendingThreadNotifications.filter (fun x => decide (x ≠ tid)) } tid now t
    rwa [seenFlag_congr
      { st with pendingThreadNotifications :=
          st.pendingThreadNotifications.filter (fun x => decide (x ≠ tid)) } st t rfl] at h
  · have hc : ¬ st.pendingThreadNotifications.contains tid = true := by simpa using hp
    rw [if_neg hc]
    simp [threadStartedCount]

theorem createThreadComplete_spec (st : BridgeState) (tid : String) (sess : Option String)
    (cwd now t : String) :
    threadStartedCount (createThreadComplete st tid sess cwd now).2 t + seenFlag st t =
      seenFlag (createThreadComplete st tid sess cwd now).1 t := by
  unfold createThreadComplete
  have h1 := flushThreadNotification_spec
    { st with threadContexts := assocInsert st.threadContexts tid ⟨sess.getD tid, cwd⟩ } tid now t
  have h2 := emitThreadStarted_spec
    (flushThreadNotification
      { st with threadContexts := assocInsert st.threadContexts tid ⟨sess.getD tid, cwd⟩ } tid now).1
    tid now t
  rw [seenFlag_congr
    { st with threadContexts := assocInsert st.threadContexts tid ⟨sess.getD tid, cwd⟩ } st t rfl]
    at h1
  simp only [threadStartedCount, List.countP_append] at h1 h2 ⊢
  omega

theorem seenFlag_le_one (st : BridgeState) (t : String) : seenFlag st t ≤ 1 := by
  unfold seenFlag
  split <;> omega

theorem turnStartedNtf_spec (st : BridgeState) (p : JVal) (now t : String) :
    threadStartedCount (turnStartedNtf st p now).2 t + seenFlag st t =
      seenFlag (turnStartedNtf st p now).1 t := by
  unfold turnStartedNtf
  rcases h1 : castTruthyString (p.get "threadId") with _ | tid <;>
    rcases h2 : castTruthyString ((p.get "turn").bind (fun x => x.get "id")) with _ | uid <;>
      simp [h1, h2, threadStartedCount, seenFlag, isThreadStartedEmit,
        List.countP_cons, List.countP_nil]

theorem turnCompletedNtf_spec (st : BridgeState) (p : JVal) (now t : String) :
    threadStartedCount (turnCompletedNtf st p now).2 t + seenFlag st t =
      seenFlag (turnCompletedNtf st p now).1 t := by
  unfold turnCompletedNtf
  rcases h1 : castTruthyString (p.get "threadId") with _ | tid <;>
    rcases h2 : (p.get "turn").bind (fun x => x.get "id") with _ | v <;>
      simp [h1, h2, threadStartedCount, seenFlag, isThreadStartedEmit,
        List.countP_cons, List.countP_nil] <;>
      split <;>
        simp [threadStartedCount, seenFlag, isThreadStartedEmit, List.countP_cons, List.countP_nil]

theorem itemLifecycleNtf_spec (st : BridgeState) (p : JVal) (now : String) (isStart : Bool)
    (t : String) :
    threadStartedCount (itemLifecycleNtf st p now isStart).2 t + seenFlag st t =
      seenFlag (itemLifecycleNtf st p now isStart).1 t := by
  unfold itemLifecycleNtf
  cases isStart <;>
    rcases h1 : castTruthyString (p.get "threadId") with _ | tid <;>
      rcases h2 : castTruthyString (p.get "turnId") with _ | uid <;>
        rcases h3 : p.get "item" with _ | item <;>
          simp only [h1, h2, h3] <;>
          (repeat' split) <;>
            simp [threadStartedCount, seenFlag, isThreadStartedEmit,
              List.countP_cons, List.countP_nil]

theorem agentMessageDeltaNtf_spec (st : BridgeState) (p : JVal) (now t : String) :
    threadStartedCount (agentMessageDeltaNtf st p now).2 t + seenFlag st t =
      seenFlag (agentMessageDeltaNtf st p now).1 t := by
  unfold agentMessageDeltaNtf
  rcases h1 : castTruthyString (p.get "threadId") with _ | tid <;>
    rcases h2 : castTruthyString (p.get "turnId") with _ | uid <;>
      rcases h3 : castTruthyString (p.get "delta") with _ | d <;>
        simp only [h1, h2, h3] <;>
        (repeat' split) <;>
          simp [threadStartedCount, seenFlag, isThreadStartedEmit,
            List.countP_cons, List.countP_nil]

theorem commandOutputDeltaNtf_spec (st : BridgeState) (p : JVal) (now t : String) :
    threadStartedCount (commandOutputDeltaNtf st p now).2 t + seenFlag st t =
      seenFlag (commandOutputDeltaNtf st p now).1 t := by
  unfold commandOutputDeltaNtf
  rcases h1 : castTruthyString (p.get "threadId") with _ | tid <;>
    rcases h2 : castTruthyString (p.get "turnId") with _ | uid <;>
      rcases h3 : castTruthyString (p.get "delta") with _ | d <;>
        simp [h1, h2, h3, threadStartedCount, seenFlag, isThreadStartedEmit,
          List.countP_cons, List.countP_nil]

theorem reasoningDeltaNtf_spec (st : BridgeState) (p : JVal) (now t : String) :
    threadStartedCount (reasoningDeltaNtf st p now).2 t + seenFlag st t =
      seenFlag (reasoningDeltaNtf st p now).1 t := by
  unfold reasoningDeltaNtf
  rcases h1 : castTruthyString (p.get "threadId") with _ | tid <;>
    rcases h2 : castTruthyString (p.get "turnId") with _ | uid <;>
      rcases h3 : castTruthyString (p.get "delta") with _ | d <;>
        simp [h1, h2, h3, threadStartedCount, seenFlag, isThreadStartedEmit,
          List.countP_cons, List.countP_nil]

theorem emitApprovalRequest_spec (st : BridgeState) (method : String) (p : JVal)
    (requestId : Option Int) (now : String) (nowMs : Int) (t : String) :
    threadStartedCount (emitApprovalRequest st method p requestId now nowMs).2 t + seenFlag st t =
      seenFlag (emitApprovalRequest st method p requestId now nowMs).1 t := by
  unfold emitApprovalRequest
  (repeat' split) <;>
    simp [threadStartedCount, seenFlag, isThreadStartedEmit, List.countP_cons, List.countP_nil,
      apply_ite BridgeState.seenThreads, apply_ite (Prod.snd (α := String) (β := BridgeState)),
      apply_ite (Prod.fst (α := String) (β := BridgeState))]

theorem threadStartedNtf_spec (st : BridgeState) (p : JVal) (now t : String) :
    threadStartedCount (threadStartedNtf st p now).2 t + seenFlag st t =
      seenFlag (threadStartedNtf st p now).1 t := by
  unfold threadStartedNtf
  rcases h1 : castTruthyString ((p.get "thread").bind (fun x => x.get "id")) with _ | tid
  · simp [h1, threadStartedCount, seenFlag]
  · simp only [h1]
    by_cases h2 : (assocFind? st.threadContexts tid).isNone
    · simp [h2, threadStartedCount, seenFlag, setAdd]
    · simp only [h2, if_false, Bool.false_eq_true]
      have h := emitThreadStarted_spec st tid now t
      simpa using h

theorem execBeginEvt_spec (st : BridgeState) (tid uid : String) (msg : JVal) (now t : String) :
    threadStartedCount (execBeginEvt st tid uid msg now).2 t + seenFlag st t =
      seenFlag (execBeginEvt st tid uid msg now).1 t := by
  unfold execBeginEvt
  simp [threadStartedCount, seenFlag, isThreadStartedEmit, List.countP_cons, List.countP_nil]

theorem execOutputDeltaEvt_spec (st : BridgeState) (tid uid : String) (msg : JVal)
    (now t : String) :
    threadStartedCount (execOutputDeltaEvt st tid uid msg now).2 t + seenFlag st t =
      seenFlag (execOutputDeltaEvt st tid uid msg now).1 t := by
  simp only [execOutputDeltaEvt]
  (repeat' split) <;>
    simp [threadStartedCount, seenFlag, isThreadStartedEmit, List.countP_cons, List.countP_nil]

theorem execEndEvt_spec (st : BridgeState) (tid uid : String) (msg : JVal) (now t : String) :
    threadStartedCount (execEndEvt st tid uid msg now).2 t + seenFlag st t =
      seenFlag (execEndEvt st tid uid msg now).1 t := by
  unfold execEndEvt
  simp [threadStartedCount, seenFlag, isThreadStartedEmit, List.countP_cons, List.countP_nil]

theorem agentMessageEvt_spec (st : BridgeState) (tid uid : String) (msg : JVal) (now t : String) :
    threadStartedCount (agentMessageEvt st tid uid msg now).2 t + seenFlag st t =
      seenFlag (agentMessageEvt st tid uid msg now).1 t := by
  simp only [agentMessageEvt]
  (repeat' split) <;>
    simp [threadStartedCount, seenFlag, isThreadStartedEmit, List.countP_cons, List.countP_nil]

theorem handleCodexEvent_spec (st : BridgeState) (method : String) (p : JVal) (now t : String) :
    threadStartedCount (handleCodexEvent st method p now).2 t + seenFlag st t =
      seenFlag (handleCodexEvent st method p now).1 t := by
  simp only [handleCodexEvent]
  rcases h1 : codexThreadId p (nullishD (p.get "msg") (JVal.obj [])) with _ | tid
  · simp [threadStartedCount, seenFlag]
  · dsimp only
    by_cases h2 : (tid.isEmpty ||
        (codexTurnId p (nullishD (p.get "msg") (JVal.obj []))).isEmpty) = true
    · simp [h2, threadStartedCount, seenFlag]
    · rw [if_neg h2]
      by_cases hb : (method == "codex/event/exec_command_begin") = true
      · rw [if_pos hb]
        apply execBeginEvt_spec
      · rw [if_neg hb]
        by_cases ho : (method == "codex/event/exec_command_output_delta") = true
        · rw [if_pos ho]
          apply execOutputDeltaEvt_spec
        · rw [if_neg ho]
          by_cases he : (method == "codex/event/exec_command_end") = true
          · rw [if_pos he]
            apply execEndEvt_spec
          · rw [if_neg he]
            by_cases ha : (method == "codex/event/agent_message_content_delta" ||
                method == "codex/event/agent_message_delta") = true
            · rw [if_pos ha]
              apply agentMessageEvt_spec
            · rw [if_neg ha]
              simp [threadStartedCount, seenFlag]

theorem handleNotification_spec (st : BridgeState) (method : String) (p : JVal) (now : String)
    (nowMs : Int) (t : String) :
    threadStartedCount (handleNotification st method p now nowMs).2 t + seenFlag st t =
      seenFlag (handleNotification st method p now nowMs).1 t := by
  simp only [handleNotification]
  (repeat' split) <;>
    first
      | apply handleCodexEvent_spec
      | apply threadStartedNtf_spec
      | apply turnStartedNtf_spec
      | apply turnCompletedNtf_spec
      | apply itemLifecycleNtf_spec
      | apply agentMessageDeltaNtf_spec
      | apply commandOutputDeltaNtf_spec
      | apply reasoningDeltaNtf_spec
      | apply emitApprovalRequest_spec
      | simp [threadStartedCount, seenFlag]

theorem step_spec (st : BridgeState) (a : BAction) (t : String) :
    threadStartedCount (step st a).2 t + seenFlag st t = seenFlag (step st a).1 t := by
  cases a with
  | notify method p now nowMs => exact handleNotification_spec st method p now nowMs t
  | serverRequest id method p now nowMs =>
    simp only [step, handleServerRequest]
    split
    · apply emitApprovalRequest_spec
    · simp [threadStartedCount, seenFlag, isThreadStartedEmit, List.countP_cons, List.countP_nil]
  | response id error result =>
    simp only [step, handleResponse]
    (repeat' split) <;>
      simp [threadStartedCount, seenFlag, isThreadStartedEmit, List.countP_cons, List.countP_nil,
        List.countP_append]
  | processExit code signal now =>
    have hmap : List.countP (isThreadStartedEmit t)
        (st.pendingRequests.map (fun p => Effect.rejectCall p.1 (exitMessage code signal))) = 0 := by
      rw [List.countP_eq_zero]
      intro a ha
      obtain ⟨q, _, rfl⟩ := List.mem_map.mp ha
      simp [isThreadStartedEmit]
    simp only [step, handleExit]
    by_cases hr : st.ready = .pendingReady <;>
      simp [hr, threadStartedCount, seenFlag, isThreadStartedEmit, List.countP_cons,
        List.countP_nil, List.countP_append, hmap]
  | createThreadOk tid sess cwd now => exact createThreadComplete_spec st tid sess cwd now t
  | turnStartOk uid tid => simp [step, threadStartedCount, seenFlag]
  | respondOk aid d =>
    simp only [step, respondApproval]
    (repeat' split) <;>
      simp [threadStartedCount, seenFlag, isThreadStartedEmit, List.countP_cons, List.countP_nil]
  | cancelReq targetId =>
    simp only [step, cancel]
    cases hst : st.ready <;>
      simp [hst, threadStartedCount, seenFlag, isThreadStartedEmit, List.countP_cons,
        List.countP_nil]

theorem runTrace_spec (st : BridgeState) (trace : List BAction) (t : String) :
    threadStartedCount (runTrace st trace).2 t + seenFlag st t =
      seenFlag (runTrace st trace).1 t := by
  induction trace generalizing st with
  | nil => simp [runTrace, threadStartedCount]
  | cons a rest ih =>
    simp only [runTrace, threadStartedCount, List.countP_append]
    have h1 := step_spec st a t
    have h2 := ih (step st a).1
    simp only [threadStartedCount] at h1 h2
    omega

theorem seen_persists (st : BridgeState) (l : List BAction) (t : String)
    (h : t ∈ st.seenThreads) : t ∈ (runTrace st l).1.seenThreads := by
  have hs := runTrace_spec st l t
  unfold seenFlag at hs
  by_cases hf : t ∈ (runTrace st l).1.seenThreads
  · exact hf
  · rw [if_pos h, if_neg hf] at hs
    omega

theorem emitThreadStarted_mem (st : BridgeState) (tid now : String) :
    tid ∈ (emitThreadStarted st tid now).1.seenThreads := by
  unfold emitThreadStarted
  by_cases h : tid ∈ st.seenThreads
  · simp [h]
  · simp [h]

theorem createThreadOk_seen (st : BridgeState) (tid : String) (sess : Option String)
    (cwd now : String) :
    tid ∈ (createThreadComplete st tid sess cwd now).1.seenThreads := by
  unfold createThreadComplete
  dsimp only
  exact emitThreadStarted_mem _ tid now

theorem hasCreate_seen (st : BridgeState) (trace : List BAction) (t : String)
    (h : hasCreateFor trace t = true) : t ∈ (runTrace st trace).1.seenThreads := by
  induction trace generalizing st with
  | nil => simp [hasCreateFor] at h
  | cons a rest ih =>
    unfold hasCreateFor at h
    rw [List.any_cons, Bool.or_eq_true] at h
    simp only [runTrace]
    rcases h with hA | hR
    · cases a with
      | createThreadOk tid sess cwd now =>
        have : tid = t := by simpa using hA
        subst this
        apply seen_persists
        exact createThreadOk_seen st tid sess cwd now
      | notify method p now nowMs => simp at hA
      | serverRequest id method p now nowMs => simp at hA
      | response id error result => simp at hA
      | processExit code signal now => simp at hA
      | turnStartOk uid tid => simp at hA
      | respondOk aid d => simp at hA
      | cancelReq targetId => simp at hA
    · exact ih (step st a).1 hR

/-! ## C6: thread.started exactly once -/

/-- C6: starting from a state where thread `t` has not yet been seen, any
sequence of bridge reactions emits `thread.started` for `t` at most once,
and exactly once when the local `createThread` completion for `t` occurs
in the trace — regardless of how peer `thread/started` notifications
interleave with it. -/
theorem thread_started_emitted_exactly_once (st0 : BridgeState) (trace : List BAction)
    (t : String) (h0 : t ∉ st0.seenThreads) :
    threadStartedCount (runTrace st0 trace).2 t ≤ 1 ∧
    (hasCreateFor trace t = true → threadStartedCount (runTrace st0 trace).2 t = 1) := by
  have hs := runTrace_spec st0 trace t
  unfold seenFlag at hs
  rw [if_neg h0] at hs
  constructor
  · by_cases hf : t ∈ (runTrace st0 trace).1.seenThreads
    · rw [if_pos hf] at hs
      omega
    · rw [if_neg hf] at hs
      omega
  · intro hcr
    have hmem := hasCreate_seen st0 trace t hcr
    rw [if_pos hmem] at hs
    omega

/-- Witness for C6 on the race trace: notification first, local creation
second, duplicate notification third — exactly one emission. -/
theorem thread_started_emitted_exactly_once_witness :
    threadStartedCount (runTrace initialState raceTrace).2 "T1" ≤ 1 ∧
    (hasCreateFor raceTrace "T1" = true →
      threadStartedCount (runTrace initialState raceTrace).2 "T1" = 1) :=
  thread_started_emitted_exactly_once initialState raceTrace "T1" (by simp [initialState])

/-! ## C4: "unknown" identities -/

/-- C4 counterexample: an approval-request notification carrying no
identities at all is not dropped — it is emitted as an `approval.request`
event whose session and turn ids are both the literal "unknown". -/
theorem approval_request_emitted_with_unknown_ids :
    (handleNotification initialState "item/commandExecution/requestApproval"
        (JVal.obj []) "t0" 5).2 =
      [Effect.emit
        { type := "approval.request", sessionId := "unknown", turnId := some "unknown",
          createdAt := "t0",
          payload := .approvalPayload "approval_5_2" "unknown" "unknown" "command"
            "Approve command?" "med" "item/commandExecution/requestApproval" (JVal.obj [])
            none "pending" "t0" "approval_5_2" false }] ∧
    (handleNotification initialState "item/commandExecution/requestApproval"
        (JVal.obj []) "t0" 5).2.any unknownIdEmit = true := ⟨rfl, rfl⟩

theorem castTruthyString_inv {v : Option JVal} {s : String}
    (h : castTruthyString v = some s) : ∃ x, v = some x ∧ x.jsToString = s := by
  unfold castTruthyString at h
  cases v with
  | none => simp at h
  | some x =>
    by_cases htr : x.truthy = true
    · simp [htr] at h
      exact ⟨x, rfl, h⟩
    · simp [htr] at h

theorem mem_assocInsert {α β : Type} [DecidableEq α] {l : List (α × β)} {k : α} {v : β}
    {q : α × β} (h : q ∈ assocInsert l k v) : q = (k, v) ∨ q ∈ l := by
  induction l with
  | nil => simpa [assocInsert] using h
  | cons p rest ih =>
    obtain ⟨k2, v2⟩ := p
    by_cases hk : k2 = k
    · simp only [assocInsert, if_pos hk] at h
      rcases List.mem_cons.mp h with h | h
      · exact Or.inl h
      · exact Or.inr (List.mem_cons_of_mem _ h)
    · simp only [assocInsert, if_neg hk] at h
      rcases List.mem_cons.mp h with h | h
      · exact Or.inr (h ▸ List.mem_cons_self _ _)
      · rcases ih h with h | h
        · exact Or.inl h
        · exact Or.inr (List.mem_cons_of_mem _ h)

theorem sessionFromThread_ne (st : BridgeState) (tid : Option String)
    (h1 : ∀ q ∈ st.threadContexts, (Prod.snd q).sessionId ≠ "unknown") :
    ∀ s, sessionFromThread st tid = some s → s ≠ "unknown" := by
  intro s hs
  unfold sessionFromThread at hs
  rcases tid with _ | t
  · simp at hs
  · by_cases hte : t.isEmpty = true
    · simp [hte] at hs
    · simp only [hte, Bool.false_eq_true, if_false] at hs
      rcases Option.map_eq_some'.mp hs with ⟨ctx, hctx, hval⟩
      exact hval ▸ h1 (t, ctx) (assocFind?_mem hctx)

theorem sessionFromTurn_ne (st : BridgeState) (uid : Option String)
    (h1 : ∀ q ∈ st.threadContexts, (Prod.snd q).sessionId ≠ "unknown")
    (h2 : ∀ q ∈ st.turnToThread, Prod.snd q ≠ "unknown") :
    ∀ s, sessionFromTurn st uid = some s → s ≠ "unknown" := by
  intro s hs
  unfold sessionFromTurn at hs
  rcases uid with _ | u
  · simp at hs
  · by_cases hue : u.isEmpty = true
    · simp [hue] at hs
    · simp only [hue, Bool.false_eq_true, if_false] at hs
      cases hfu : assocFind? st.turnToThread u with
      | none => rw [hfu] at hs; simp at hs
      | some thread =>
        rw [hfu] at hs
        have hthread : thread ≠ "unknown" := h2 (u, thread) (assocFind?_mem hfu)
        by_cases hth : thread.isEmpty = true
        · simp [hth] at hs
          exact hs ▸ hthread
        · simp only [hth, Bool.not_eq_true, Bool.false_eq_true, if_false, Bool.not_false,
            if_true] at hs
          cases hctx : assocFind? st.threadContexts thread with
          | none => rw [hctx] at hs; simp at hs; exact hs ▸ hthread
          | some ctx =>
            rw [hctx] at hs
            simp at hs
            exact hs ▸ h1 (thread, ctx) (assocFind?_mem hctx)

theorem resolveSessionId_ne (st : BridgeState) (t : String) (uid : Option String)
    (h1 : ∀ q ∈ st.threadContexts, (Prod.snd q).sessionId ≠ "unknown")
    (h2 : ∀ q ∈ st.turnToThread, Prod.snd q ≠ "unknown")
    (ht : t ≠ "unknown") :
    resolveSessionId st (some t) uid ≠ "unknown" := by
  unfold resolveSessionId
  cases hsf : sessionFromThread st (some t) with
  | some s => exact sessionFromThread_ne st (some t) h1 s hsf
  | none =>
    cases hst : sessionFromTurn st uid with
    | some s => exact sessionFromTurn_ne st uid h1 h2 s hst
    | none => simpa using ht

theorem badUnknownEmit_emit (ev : TEvent) (h1 : ev.sessionId ≠ "unknown")
    (h2 : ev.turnId ≠ some "unknown") : badUnknownEmit (Effect.emit ev) = false := by
  have e1 : (ev.sessionId == "unknown") = false := beq_eq_false_iff_ne.mpr h1
  have e2 : (ev.turnId == some "unknown") = false := beq_eq_false_iff_ne.mpr h2
  simp [badUnknownEmit, e1, e2]

theorem badUnknownEmit_approval (ev : TEvent) (h : ev.type = "approval.request") :
    badUnknownEmit (Effect.emit ev) = false := by
  simp [badUnknownEmit, h]

theorem emitApprovalRequest_no_bad (st : BridgeState) (method : String) (p : JVal)
    (rid : Option Int) (now : String) (nowMs : Int) :
    List.filter badUnknownEmit (emitApprovalRequest st method p rid now nowMs).2 = [] := by
  unfold emitApprovalRequest
  (repeat' split) <;> simp [badUnknownEmit]

theorem emitApprovalRequest_only_approval (st : BridgeState) (method : String) (p : JVal)
    (rid : Option Int) (now : String) (nowMs : Int) :
    List.filter nonApprovalEmit (emitApprovalRequest st method p rid now nowMs).2 = [] := by
  unfold emitApprovalRequest
  (repeat' split) <;> simp [nonApprovalEmit]

theorem emitThreadStarted_no_bad (st : BridgeState) (tid now : String)
    (h1 : ∀ q ∈ st.threadContexts, (Prod.snd q).sessionId ≠ "unknown")
    (h2 : ∀ q ∈ st.turnToThread, Prod.snd q ≠ "unknown")
    (ht : tid ≠ "unknown") :
    List.filter badUnknownEmit (emitThreadStarted st tid now).2 = [] := by
  unfold emitThreadStarted
  by_cases h : tid ∈ st.seenThreads
  · simp [h]
  · have hsess : resolveSessionId { st with seenThreads := tid :: st.seenThreads }
        (some tid) none ≠ "unknown" :=
      resolveSessionId_ne _ tid none h1 h2 ht
    have hb := badUnknownEmit_emit
      { type := "thread.started",
        sessionId := resolveSessionId { st with seenThreads := tid :: st.seenThreads }
          (some tid) none,
        turnId := none, createdAt := now, payload := .threadStarted tid } hsess (by simp)
    simp [h, List.filter, hb]

theorem filter_bad_singleton (ev : TEvent) (h1 : ev.sessionId ≠ "unknown")
    (h2 : ev.turnId ≠ some "unknown") :
    List.filter badUnknownEmit [Effect.emit ev] = [] := by
  simp [List.filter, badUnknownEmit_emit ev h1 h2]

theorem threadStartedNtf_no_bad (st : BridgeState) (p : JVal) (now : String)
    (h1 : ∀ q ∈ st.threadContexts, (Prod.snd q).sessionId ≠ "unknown")
    (h2 : ∀ q ∈ st.turnToThread, Prod.snd q ≠ "unknown")
    (hp7 : ∀ v, (p.get "thread").bind (fun x => x.get "id") = some v →
      v.jsToString ≠ "unknown") :
    List.filter badUnknownEmit (threadStartedNtf st p now).2 = [] := by
  unfold threadStartedNtf
  rcases hc1 : castTruthyString ((p.get "thread").bind (fun x => x.get "id")) with _ | tid
  · rfl
  · obtain ⟨x, hx, hxs⟩ := castTruthyString_inv hc1
    have htid : tid ≠ "unknown" := hxs ▸ hp7 x hx
    dsimp only
    split
    · rfl
    · exact emitThreadStarted_no_bad st tid now h1 h2 htid

theorem turnStartedNtf_no_bad (st : BridgeState) (p : JVal) (now : String)
    (h1 : ∀ q ∈ st.threadContexts, (Prod.snd q).sessionId ≠ "unknown")
    (h2 : ∀ q ∈ st.turnToThread, Prod.snd q ≠ "unknown")
    (hp5 : ∀ v, p.get "threadId" = some v → v.jsToString ≠ "unknown")
    (hp8 : ∀ v, (p.get "turn").bind (fun x => x.get "id") = some v →
      v.jsToString ≠ "unknown") :
    List.filter badUnknownEmit (turnStartedNtf st p now).2 = [] := by
  unfold turnStartedNtf
  rcases hc1 : castTruthyString (p.get "threadId") with _ | tid <;>
    rcases hc2 : castTruthyString ((p.get "turn").bind (fun x => x.get "id")) with _ | uid
  · rfl
  · rfl
  · rfl
  · obtain ⟨x, hx, hxs⟩ := castTruthyString_inv hc1
    obtain ⟨y, hy, hys⟩ := castTruthyString_inv hc2
    have htid : tid ≠ "unknown" := hxs ▸ hp5 x hx
    have huid : uid ≠ "unknown" := hys ▸ hp8 y hy
    have h2b : ∀ q ∈ assocInsert st.turnToThread uid tid, Prod.snd q ≠ "unknown" := by
      intro q hq
      rcases mem_assocInsert hq with h | h
      · rw [h]
        exact htid
      · exact h2 q h
    dsimp only
    apply filter_bad_singleton
    · exact resolveSessionId_ne _ tid none h1 h2b htid
    · exact fun hh => huid (Option.some.inj hh)

theorem turnCompletedNtf_no_bad (st : BridgeState) (p : JVal) (now : String)
    (h1 : ∀ q ∈ st.threadContexts, (Prod.snd q).sessionId ≠ "unknown")
    (h2 : ∀ q ∈ st.turnToThread, Prod.snd q ≠ "unknown")
    (hp5 : ∀ v, p.get "threadId" = some v → v.jsToString ≠ "unknown")
    (hp8 : ∀ v, (p.get "turn").bind (fun x => x.get "id") = some v →
      v.jsToString ≠ "unknown") :
    List.filter badUnknownEmit (turnCompletedNtf st p now).2 = [] := by
  unfold turnCompletedNtf
  rcases hc1 : castTruthyString (p.get "threadId") with _ | tid <;>
    rcases hc2 : (p.get "turn").bind (fun x => x.get "id") with _ | v
  · rfl
  · rfl
  · rfl
  · obtain ⟨x, hx, hxs⟩ := castTruthyString_inv hc1
    have htid : tid ≠ "unknown" := hxs ▸ hp5 x hx
    have hvne : v.jsToString ≠ "unknown" := hp8 v hc2
    dsimp only
    split
    · apply filter_bad_singleton
      · exact resolveSessionId_ne _ tid none h1 h2 htid
      · exact fun hh => hvne (Option.some.inj hh)
    · rfl

theorem itemLifecycleNtf_no_bad (st : BridgeState) (p : JVal) (now : String) (isStart : Bool)
    (h1 : ∀ q ∈ st.threadContexts, (Prod.snd q).sessionId ≠ "unknown")
    (h2 : ∀ q ∈ st.turnToThread, Prod.snd q ≠ "unknown")
    (hp5 : ∀ v, p.get "threadId" = some v → v.jsToString ≠ "unknown")
    (hp6 : ∀ v, p.get "turnId" = some v → v.jsToString ≠ "unknown") :
    List.filter badUnknownEmit (itemLifecycleNtf st p now isStart).2 = [] := by
  unfold itemLifecycleNtf
  rcases hc1 : castTruthyString (p.get "threadId") with _ | tid <;>
    rcases hc2 : castTruthyString (p.get "turnId") with _ | uid <;>
      rcases hc3 : p.get "item" with _ | item
  case some.some.some =>
    obtain ⟨x, hx, hxs⟩ := castTruthyString_inv hc1
    obtain ⟨y, hy, hys⟩ := castTruthyString_inv hc2
    have htid : tid ≠ "unknown" := hxs ▸ hp5 x hx
    have huid : uid ≠ "unknown" := hys ▸ hp6 y hy
    dsimp only
    (repeat' split) <;>
      first
        | rfl
        | (apply filter_bad_singleton <;>
            first
              | exact resolveSessionId_ne _ tid none h1 h2 htid
              | exact fun hh => huid (Option.some.inj hh))
  all_goals rfl

theorem agentMessageDeltaNtf_no_bad (st : BridgeState) (p : JVal) (now : String)
    (h1 : ∀ q ∈ st.threadContexts, (Prod.snd q).sessionId ≠ "unknown")
    (h2 : ∀ q ∈ st.turnToThread, Prod.snd q ≠ "unknown")
    (hp5 : ∀ v, p.get "threadId" = some v → v.jsToString ≠ "unknown")
    (hp6 : ∀ v, p.get "turnId" = some v → v.jsToString ≠ "unknown") :
    List.filter badUnknownEmit (agentMessageDeltaNtf st p now).2 = [] := by
  unfold agentMessageDeltaNtf
  rcases hc1 : castTruthyString (p.get "threadId") with _ | tid <;>
    rcases hc2 : castTruthyString (p.get "turnId") with _ | uid <;>
      rcases hc3 : castTruthyString (p.get "delta") with _ | d
  case some.some.some =>
    obtain ⟨x, hx, hxs⟩ := castTruthyString_inv hc1
    obtain ⟨y, hy, hys⟩ := castTruthyString_inv hc2
    have htid : tid ≠ "unknown" := hxs ▸ hp5 x hx
    have huid : uid ≠ "unknown" := hys ▸ hp6 y hy
    dsimp only
    (repeat' split) <;>
      first
        | rfl
        | (apply filter_bad_singleton <;>
            first
              | exact resolveSessionId_ne _ tid none h1 h2 htid
              | exact fun hh => huid (Option.some.inj hh))
  all_goals rfl

theorem commandOutputDeltaNtf_no_bad (st : BridgeState) (p : JVal) (now : String)
    (h1 : ∀ q ∈ st.threadContexts, (Prod.snd q).sessionId ≠ "unknown")
    (h2 : ∀ q ∈ st.turnToThread, Prod.snd q ≠ "unknown")
    (hp5 : ∀ v, p.get "threadId" = some v → v.jsToString ≠ "unknown")
    (hp6 : ∀ v, p.get "turnId" = some v → v.jsToString ≠ "unknown") :
    List.filter badUnknownEmit (commandOutputDeltaNtf st p now).2 = [] := by
  unfold commandOutputDeltaNtf
  rcases hc1 : castTruthyString (p.get "threadId") with _ | tid <;>
    rcases hc2 : castTruthyString (p.get "turnId") with _ | uid <;>
      rcases hc3 : castTruthyString (p.get "delta") with _ | d
  case some.some.some =>
    obtain ⟨x, hx, hxs⟩ := castTruthyString_inv hc1
    obtain ⟨y, hy, hys⟩ := castTruthyString_inv hc2
    have htid : tid ≠ "unknown" := hxs ▸ hp5 x hx
    have huid : uid ≠ "unknown" := hys ▸ hp6 y hy
    dsimp only
    apply filter_bad_singleton
    · exact resolveSessionId_ne _ tid none h1 h2 htid
    · exact fun hh => huid (Option.some.inj hh)
  all_goals rfl

theorem reasoningDeltaNtf_no_bad (st : BridgeState) (p : JVal) (now : String)
    (h1 : ∀ q ∈ st.threadContexts, (Prod.snd q).sessionId ≠ "unknown")
    (h2 : ∀ q ∈ st.turnToThread, Prod.snd q ≠ "unknown")
    (hp5 : ∀ v, p.get "threadId" = some v → v.jsToString ≠ "unknown")
    (hp6 : ∀ v, p.get "turnId" = some v → v.jsToString ≠ "unknown") :
    List.filter badUnknownEmit (reasoningDeltaNtf st p now).2 = [] := by
  unfold reasoningDeltaNtf
  rcases hc1 : castTruthyString (p.get "threadId") with _ | tid <;>
    rcases hc2 : castTruthyString (p.get "turnId") with _ | uid <;>
      rcases hc3 : castTruthyString (p.get "delta") with _ | d
  case some.some.some =>
    obtain ⟨x, hx, hxs⟩ := castTruthyString_inv hc1
    obtain ⟨y, hy, hys⟩ := castTruthyString_inv hc2
    have htid : tid ≠ "unknown" := hxs ▸ hp5 x hx
    have huid : uid ≠ "unknown" := hys ▸ hp6 y hy
    dsimp only
    apply filter_bad_singleton
    · exact resolveSessionId_ne _ tid none h1 h2 htid
    · exact fun hh => huid (Option.some.inj hh)
  all_goals rfl

theorem codexThreadId_ne (p msg : JVal)
    (hA : ∀ s, resolveThreadId p = some s → s ≠ "unknown")
    (hB : ∀ s, resolveThreadId msg = some s → s ≠ "unknown") :
    ∀ s, codexThreadId p msg = some s → s ≠ "unknown" := by
  intro s hs
  unfold codexThreadId nullishOpt at hs
  cases hp : resolveThreadId p with
  | some v =>
    rw [hp] at hs
    simp at hs
    exact hs ▸ hA v hp
  | none =>
    rw [hp] at hs
    exact hB s hs

theorem codexTurnId_ne (p msg : JVal)
    (hA : ∀ s, resolveTurnId p = some s → s ≠ "unknown")
    (hB : ∀ s, resolveTurnId msg = some s → s ≠ "unknown")
    (hid : ∀ v, p.get "id" = some v → v.jsToString ≠ "unknown") :
    codexTurnId p msg ≠ "unknown" := by
  unfold codexTurnId
  cases hN : nullishOpt (resolveTurnId p) (resolveTurnId msg) with
  | some u =>
    have hu : u ≠ "unknown" := by
      unfold nullishOpt at hN
      cases hp : resolveTurnId p with
      | some v =>
        rw [hp] at hN
        simp at hN
        exact hN ▸ hA v hp
      | none =>
        rw [hp] at hN
        exact hB u hN
    simpa using hu
  | none =>
    dsimp only
    cases hg : p.get "id" with
    | none => simp [nullishD, JVal.jsToString]
    | some v =>
      cases v with
      | null => simp [nullishD, JVal.jsToString]
      | str s => simpa [nullishD, JVal.jsToString] using hid _ hg
      | num n => simpa [nullishD, JVal.jsToString] using hid _ hg
      | boolean b => simpa [nullishD, JVal.jsToString] using hid _ hg
      | arr xs => simpa [nullishD, JVal.jsToString] using hid _ hg
      | obj fs => simpa [nullishD, JVal.jsToString] using hid _ hg

theorem ctxOverride_ne (st : BridgeState) (cid fallback : String) (sel : CmdExec → Option String)
    (h3 : ∀ q ∈ st.commandExecutions, sel (Prod.snd q) ≠ some "unknown")
    (hfb : fallback ≠ "unknown") :
    (((assocFind? st.commandExecutions cid).bind (fun c => sel c)).getD fallback) ≠ "unknown" := by
  cases hfind : assocFind? st.commandExecutions cid with
  | none => simpa using hfb
  | some c =>
    cases hsel : sel c with
    | none => simpa [hsel] using hfb
    | some x =>
      have hx := h3 (cid, c) (assocFind?_mem hfind)
      rw [hsel] at hx
      simp [hsel]
      intro he
      exact hx (by rw [he])

theorem execBeginEvt_no_bad (st : BridgeState) (tid uid : String) (msg : JVal) (now : String)
    (h1 : ∀ q ∈ st.threadContexts, (Prod.snd q).sessionId ≠ "unknown")
    (h2 : ∀ q ∈ st.turnToThread, Prod.snd q ≠ "unknown")
    (ht : tid ≠ "unknown") (hu : uid ≠ "unknown") :
    List.filter badUnknownEmit (execBeginEvt st tid uid msg now).2 = [] := by
  simp only [execBeginEvt]
  apply filter_bad_singleton
  · exact resolveSessionId_ne _ tid (some uid) h1 h2 ht
  · exact fun hh => hu (Option.some.inj hh)

theorem execOutputDeltaEvt_no_bad (st : BridgeState) (tid uid : String) (msg : JVal)
    (now : String)
    (h1 : ∀ q ∈ st.threadContexts, (Prod.snd q).sessionId ≠ "unknown")
    (h2 : ∀ q ∈ st.turnToThread, Prod.snd q ≠ "unknown")
    (h3a : ∀ q ∈ st.commandExecutions, (Prod.snd q).threadId ≠ some "unknown")
    (h3b : ∀ q ∈ st.commandExecutions, (Prod.snd q).turnId ≠ some "unknown")
    (ht : tid ≠ "unknown") (hu : uid ≠ "unknown") :
    List.filter badUnknownEmit (execOutputDeltaEvt st tid uid msg now).2 = [] := by
  have hrt := ctxOverride_ne st (codexCallId msg) tid (fun c => c.threadId) h3a ht
  have hru := ctxOverride_ne st (codexCallId msg) uid (fun c => c.turnId) h3b hu
  simp only [execOutputDeltaEvt]
  split
  · rfl
  · apply filter_bad_singleton
    · exact resolveSessionId_ne _ _ _ h1 h2 hrt
    · exact fun hh => hru (Option.some.inj hh)

theorem execEndEvt_no_bad (st : BridgeState) (tid uid : String) (msg : JVal) (now : String)
    (h1 : ∀ q ∈ st.threadContexts, (Prod.snd q).sessionId ≠ "unknown")
    (h2 : ∀ q ∈ st.turnToThread, Prod.snd q ≠ "unknown")
    (h3a : ∀ q ∈ st.commandExecutions, (Prod.snd q).threadId ≠ some "unknown")
    (h3b : ∀ q ∈ st.commandExecutions, (Prod.snd q).turnId ≠ some "unknown")
    (ht : tid ≠ "unknown") (hu : uid ≠ "unknown") :
    List.filter badUnknownEmit (execEndEvt st tid uid msg now).2 = [] := by
  have hrt := ctxOverride_ne st (codexCallId msg) tid (fun c => c.threadId) h3a ht
  have hru := ctxOverride_ne st (codexCallId msg) uid (fun c => c.turnId) h3b hu
  simp only [execEndEvt]
  apply filter_bad_singleton
  · exact resolveSessionId_ne _ _ _ h1 h2 hrt
  · exact fun hh => hru (Option.some.inj hh)

theorem agentMessageEvt_no_bad (st : BridgeState) (tid uid : String) (msg : JVal) (now : String)
    (h1 : ∀ q ∈ st.threadContexts, (Prod.snd q).sessionId ≠ "unknown")
    (h2 : ∀ q ∈ st.turnToThread, Prod.snd q ≠ "unknown")
    (ht : tid ≠ "unknown") (hu : uid ≠ "unknown") :
    List.filter badUnknownEmit (agentMessageEvt st tid uid msg now).2 = [] := by
  simp only [agentMessageEvt]
  split
  · rfl
  · apply filter_bad_singleton
    · exact resolveSessionId_ne _ tid (some uid) h1 h2 ht
    · exact fun hh => hu (Option.some.inj hh)

theorem handleCodexEvent_no_bad (st : BridgeState) (method : String) (p : JVal) (now : String)
    (h1 : ∀ q ∈ st.threadContexts, (Prod.snd q).sessionId ≠ "unknown")
    (h2 : ∀ q ∈ st.turnToThread, Prod.snd q ≠ "unknown")
    (h3a : ∀ q ∈ st.commandExecutions, (Prod.snd q).threadId ≠ some "unknown")
    (h3b : ∀ q ∈ st.commandExecutions, (Prod.snd q).turnId ≠ some "unknown")
    (hp1 : ∀ s, resolveThreadId p = some s → s ≠ "unknown")
    (hp2 : ∀ s, resolveTurnId p = some s → s ≠ "unknown")
    (hp3 : ∀ s, resolveThreadId (nullishD (p.get "msg") (.obj [])) = some s → s ≠ "unknown")
    (hp4 : ∀ s, resolveTurnId (nullishD (p.get "msg") (.obj [])) = some s → s ≠ "unknown")
    (hp9 : ∀ v, p.get "id" = some v → v.jsToString ≠ "unknown") :
    List.filter badUnknownEmit (handleCodexEvent st method p now).2 = [] := by
  simp only [handleCodexEvent]
  rcases hc : codexThreadId p (nullishD (p.get "msg") (JVal.obj [])) with _ | tid
  · rfl
  · dsimp only
    have htid : tid ≠ "unknown" := codexThreadId_ne p _ hp1 hp3 tid hc
    have huid : codexTurnId p (nullishD (p.get "msg") (JVal.obj [])) ≠ "unknown" :=
      codexTurnId_ne p _ hp2 hp4 hp9
    by_cases hg : (tid.isEmpty ||
        (codexTurnId p (nullishD (p.get "msg") (JVal.obj []))).isEmpty) = true
    · simp [hg]
    · rw [if_neg hg]
      by_cases hb : (method == "codex/event/exec_command_begin") = true
      · rw [if_pos hb]
        exact execBeginEvt_no_bad st tid _ _ now h1 h2 htid huid
      · rw [if_neg hb]
        by_cases ho : (method == "codex/event/exec_command_output_delta") = true
        · rw [if_pos ho]
          exact execOutputDeltaEvt_no_bad st tid _ _ now h1 h2 h3a h3b htid huid
        · rw [if_neg ho]
          by_cases he : (method == "codex/event/exec_command_end") = true
          · rw [if_pos he]
            exact execEndEvt_no_bad st tid _ _ now h1 h2 h3a h3b htid huid
          · rw [if_neg he]
            by_cases ha : (method == "codex/event/agent_message_content_delta" ||
                method == "codex/event/agent_message_delta") = true
            · rw [if_pos ha]
              exact agentMessageEvt_no_bad st tid _ _ now h1 h2 htid huid
            · rw [if_neg ha]
              rfl

set_option maxHeartbeats 1000000 in
/-- C4 (amended): whenever the state and the payload do not already spell
the literal "unknown" anywhere, no notification handler emits an event
with an "unknown" session or turn identity — except approval requests,
which are never dropped and fall back to "unknown" identities; and the
only other inbound path, peer-initiated requests, emits approval events
only.  (The process-exit error event is the remaining intentional
"unknown" emission.) -/
theorem notifications_never_introduce_unknown (st : BridgeState) (method : String)
    (params : JVal) (now : String) (nowMs : Int)
    (hst : NoUnknownState st) (hp : ParamsAvoidUnknown params) :
    List.filter badUnknownEmit (handleNotification st method params now nowMs).2 = [] ∧
    (∀ id m2 p2 n2 nm2,
      List.filter nonApprovalEmit (handleServerRequest st id m2 p2 n2 nm2).2 = []) := by
  obtain ⟨h1, h2, h3⟩ := hst
  have h3a : ∀ q ∈ st.commandExecutions, (Prod.snd q).threadId ≠ some "unknown" :=
    fun q hq => (h3 q hq).1
  have h3b : ∀ q ∈ st.commandExecutions, (Prod.snd q).turnId ≠ some "unknown" :=
    fun q hq => (h3 q hq).2
  obtain ⟨hp1, hp2, hp3, hp4, hp5, hp6, hp7, hp8, hp9⟩ := hp
  constructor
  · unfold handleNotification
    (repeat' split) <;>
      first
        | exact handleCodexEvent_no_bad st method params now h1 h2 h3a h3b hp1 hp2 hp3 hp4 hp9
        | exact threadStartedNtf_no_bad st params now h1 h2 hp7
        | exact turnStartedNtf_no_bad st params now h1 h2 hp5 hp8
        | exact turnCompletedNtf_no_bad st params now h1 h2 hp5 hp8
        | exact itemLifecycleNtf_no_bad st params now true h1 h2 hp5 hp6
        | exact itemLifecycleNtf_no_bad st params now false h1 h2 hp5 hp6
        | exact agentMessageDeltaNtf_no_bad st params now h1 h2 hp5 hp6
        | exact commandOutputDeltaNtf_no_bad st params now h1 h2 hp5 hp6
        | exact reasoningDeltaNtf_no_bad st params now h1 h2 hp5 hp6
        | exact emitApprovalRequest_no_bad st method params none now nowMs
        | rfl
  · intro id m2 p2 n2 nm2
    unfold handleServerRequest
    split
    · exact emitApprovalRequest_only_approval st m2 p2 (some id) n2 nm2
    · rfl

set_option maxHeartbeats 1000000 in
/-- Witness for C4 (amended) on a fully addressed `turn/started`
notification over the initial state. -/
theorem notifications_never_introduce_unknown_witness :
    List.filter badUnknownEmit
      (handleNotification initialState "turn/started" turnStartedParams "t0" 0).2 = [] :=
  (notifications_never_introduce_unknown initialState "turn/started" turnStartedParams "t0" 0
    ⟨fun q hq => absurd hq (List.not_mem_nil q),
     fun q hq => absurd hq (List.not_mem_nil q),
     fun q hq => absurd hq (List.not_mem_nil q)⟩
    ⟨fun s hs => by injection hs with h; subst h; decide,
     fun s hs => by injection hs with h; subst h; decide,
     fun s hs => Option.noConfusion hs,
     fun s hs => Option.noConfusion hs,
     fun v hv => by injection hv with h; subst h; decide,
     fun v hv => Option.noConfusion hv,
     fun v hv => Option.noConfusion hv,
     fun v hv => by injection hv with h; subst h; decide,
     fun v hv => Option.noConfusion hv⟩).1
